import Mathlib

/-!
Verification development for the proactive notification bot
(`src/main.py`, `src/bot/messages.py`, `src/services/news.py`,
`src/services/evening.py`, `src/services/llm.py`).

The Python code is shallowly embedded: dictionaries become structures whose
fields are `Option`-valued exactly where the code reads them with
`dict.get(key, default)`; Python string truthiness (`if s:`) becomes a
non-emptiness test; f-string interpolation becomes explicit string
concatenation with `toString` for numeric fields; Python's `sorted` becomes
the stable `List.mergeSort` under the code-point lexicographic order that
Python uses on `str`.  External library calls with no algorithmic content in
this repository (the LLM transport, `html.unescape`) are oracle parameters.
ISO-8601 timestamps, which the code compares as strings (a comparison that is
monotone in time for a fixed zone and format), are embedded as natural
numbers compared with `≤`.
-/

namespace Bot

/-- Python string truthiness for an optional string field: `None` and the
empty string are falsy. -/
def pyTruthy (s : Option String) : Bool :=
  match s with
  | none => false
  | some t => decide (t ≠ "")

/-- Python whitespace class (the ASCII part of `\s` used by `str.strip` and
`re.sub(r"\s+", ...)` in `_clean_text`). -/
def isPySpace (c : Char) : Bool :=
  c = ' ' || c = '\t' || c = '\n' || c = '\r' || c = '\x0b' || c = '\x0c'

/-- Python `str.strip` over the character list. -/
def pyStripChars (l : List Char) : List Char :=
  ((l.dropWhile isPySpace).reverse.dropWhile isPySpace).reverse

/-- Python `str.strip`. -/
def pyStrip (s : String) : String := ⟨pyStripChars s.data⟩

/-- Python `str.rstrip` over the character list. -/
def pyRstripChars (l : List Char) : List Char :=
  (l.reverse.dropWhile isPySpace).reverse

/-- Python slicing `s[:n]`. -/
def pyTake (n : Nat) (s : String) : String := ⟨s.data.take n⟩

/-- Python `s1 in s2` substring test, as a proposition on the character
lists. -/
def strContains (s pat : String) : Prop := pat.data <:+: s.data

instance (s pat : String) : Decidable (strContains s pat) :=
  inferInstanceAs (Decidable (pat.data <:+: s.data))

theorem string_data_append (a b : String) : (a ++ b).data = a.data ++ b.data := by
  cases a; cases b; rfl

theorem string_length_append (a b : String) :
    (a ++ b).length = a.length + b.length := by
  show (a ++ b).data.length = a.data.length + b.data.length
  rw [string_data_append, List.length_append]

theorem string_mk_data (l : List Char) : (String.mk l).data = l := rfl

theorem string_mk_length (l : List Char) : (String.mk l).length = l.length := rfl

theorem strContains_append_right (a b pat : String) (h : strContains b pat) :
    strContains (a ++ b) pat := by
  unfold strContains at h ⊢
  rw [string_data_append]
  exact h.trans (List.suffix_append a.data b.data).isInfix

theorem strContains_append_left (a b pat : String) (h : strContains a pat) :
    strContains (a ++ b) pat := by
  unfold strContains at h ⊢
  rw [string_data_append]
  exact h.trans (List.prefix_append a.data b.data).isInfix

theorem strContains_self (pat : String) : strContains pat pat :=
  List.infix_refl pat.data

theorem strContains_mono (a pat : String) (h : strContains a pat) :
    ∀ b : String, a.data <:+: b.data → strContains b pat :=
  fun _ hb => h.trans hb

/-- A string cannot contain a pattern holding a character the string lacks. -/
theorem not_strContains_of_char (s pat : String) (c : Char)
    (hc : c ∈ pat.data) (hs : c ∉ s.data) : ¬ strContains s pat :=
  fun h => hs (h.subset hc)

theorem char_not_mem_append (c : Char) (a b : String)
    (ha : c ∉ a.data) (hb : c ∉ b.data) : c ∉ (a ++ b).data := by
  rw [string_data_append]
  intro h
  rcases List.mem_append.mp h with h | h
  · exact ha h
  · exact hb h

/-! ### ASCII bound for rendered numbers

`toString` on `Nat`/`Int` only produces digits and `-`, all ASCII, so a
non-ASCII character (every Korean syllable used by the formatters) can never
come from an interpolated number. -/

theorem digitChar_ascii (m : Nat) : (Nat.digitChar m).toNat < 128 := by
  match m with
  | 0 | 1 | 2 | 3 | 4 | 5 | 6 | 7 | 8 | 9 | 10 | 11 | 12 | 13 | 14 | 15 => decide
  | n + 16 =>
    have h : Nat.digitChar (n + 16) = '*' := by
      simp only [Nat.digitChar]
      repeat rw [if_neg (by omega)]
    rw [h]; decide

theorem toDigitsCore_succ_eq (b fuel n : Nat) (ds : List Char) :
    Nat.toDigitsCore b (fuel+1) n ds =
      if n / b = 0 then Nat.digitChar (n % b) :: ds
      else Nat.toDigitsCore b fuel (n / b) (Nat.digitChar (n % b) :: ds) := rfl

theorem toDigitsCore_ascii (fuel n : Nat) (ds : List Char)
    (h : ∀ c ∈ ds, c.toNat < 128) :
    ∀ c ∈ Nat.toDigitsCore 10 fuel n ds, c.toNat < 128 := by
  induction fuel generalizing n ds with
  | zero => simpa [Nat.toDigitsCore] using h
  | succ fuel ih =>
    intro c hc
    rw [toDigitsCore_succ_eq] at hc
    by_cases hz : n / 10 = 0
    · rw [if_pos hz] at hc
      cases hc with
      | head => exact digitChar_ascii _
      | tail _ hm => exact h c hm
    · rw [if_neg hz] at hc
      refine ih _ _ ?_ c hc
      intro c' hc'
      cases hc' with
      | head => exact digitChar_ascii _
      | tail _ hm => exact h c' hm

theorem natRepr_ascii (n : Nat) : ∀ c ∈ (Nat.repr n).data, c.toNat < 128 := by
  intro c hc
  have h : (Nat.repr n).data = Nat.toDigitsCore 10 (n+1) n [] := rfl
  rw [h] at hc
  exact toDigitsCore_ascii _ _ _ (by simp) c hc

theorem intRepr_ascii (n : Int) : ∀ c ∈ (Int.repr n).data, c.toNat < 128 := by
  intro c hc
  cases n with
  | ofNat m => exact natRepr_ascii m c hc
  | negSucc m =>
    have h : (Int.repr (Int.negSucc m)).data = '-' :: (Nat.repr (m+1)).data := rfl
    rw [h] at hc
    cases hc with
    | head => decide
    | tail _ hm => exact natRepr_ascii _ c hm

theorem intToString_ascii (n : Int) : ∀ c ∈ (toString n).data, c.toNat < 128 :=
  intRepr_ascii n

theorem char_not_mem_of_ascii (c : Char) (s : String)
    (hs : ∀ x ∈ s.data, x.toNat < 128) (hc : 128 ≤ c.toNat) : c ∉ s.data :=
  fun h => absurd (hs c h) (by omega)

/-! ### Python string comparison

Python compares `str` values code point by code point; `sorted` with the
default key on ISO-ish text uses exactly this order. -/

/-- Code-point lexicographic comparison, Python's `<=` on `str`. -/
def lexLe : List Char → List Char → Bool
  | [], _ => true
  | _ :: _, [] => false
  | a :: as, b :: bs =>
    if a.toNat < b.toNat then true
    else if b.toNat < a.toNat then false
    else lexLe as bs

/-- Python `a <= b` on strings. -/
def pyStrLe (a b : String) : Bool := lexLe a.data b.data

theorem lexLe_total (a b : List Char) : lexLe a b || lexLe b a := by
  induction a generalizing b with
  | nil => simp [lexLe]
  | cons x xs ih =>
    cases b with
    | nil => simp [lexLe]
    | cons y ys =>
      by_cases h1 : x.toNat < y.toNat
      · simp [lexLe, h1]
      · by_cases h2 : y.toNat < x.toNat
        · simp [lexLe, h1, h2]
        · have := ih ys
          simp only [lexLe, if_neg h1, if_neg h2]
          simpa using this

theorem lexLe_trans (a b c : List Char)
    (hab : lexLe a b = true) (hbc : lexLe b c = true) : lexLe a c = true := by
  induction a generalizing b c with
  | nil => simp [lexLe]
  | cons x xs ih =>
    cases b with
    | nil => simp [lexLe] at hab
    | cons y ys =>
      cases c with
      | nil => simp [lexLe] at hbc
      | cons z zs =>
        simp only [lexLe] at hab hbc ⊢
        by_cases hxy : x.toNat < y.toNat
        · by_cases hyz : y.toNat < z.toNat
          · rw [if_pos (by omega)]
          · by_cases hzy : z.toNat < y.toNat
            · rw [if_pos hxy] at hab
              rw [if_neg hyz, if_pos hzy] at hbc
              exact absurd hbc (by simp)
            · have hyz' : y.toNat = z.toNat := by omega
              rw [if_pos (by omega)]
        · by_cases hyx : y.toNat < x.toNat
          · rw [if_neg hxy, if_pos hyx] at hab
            exact absurd hab (by simp)
          · have hxy' : x.toNat = y.toNat := by omega
            rw [if_neg hxy, if_neg (by omega)] at hab
            by_cases hyz : y.toNat < z.toNat
            · rw [if_pos (by omega)]
            · by_cases hzy : z.toNat < y.toNat
              · rw [if_neg hyz, if_pos hzy] at hbc
                exact absurd hbc (by simp)
              · rw [if_neg hyz, if_neg hzy] at hbc
                rw [if_neg (by omega), if_neg (by omega)]
                exact ih ys zs hab hbc

theorem pyStrLe_trans (a b c : String)
    (hab : pyStrLe a b = true) (hbc : pyStrLe b c = true) : pyStrLe a c = true :=
  lexLe_trans a.data b.data c.data hab hbc

theorem pyStrLe_total (a b : String) : pyStrLe a b || pyStrLe b a :=
  lexLe_total a.data b.data

/-! ### Data model

Each structure mirrors the dictionary a Python function receives; a field is
`Option`-valued when the code reads it with `dict.get(key, default)` and the
upstream producer can omit it.  `get_weather` returns either `None` or a dict
carrying every key below, so an absent weather record is `none`, never a
record of `none` fields. -/

/-- Weather record produced by `get_weather` and consumed by
`format_weather_message` / `format_commute_message` (`temp`, `feels_like`,
`humidity`, `rain_probability` are ints after `round`, `description` a
string). -/
structure WeatherData where
  temp : Option Int
  feels_like : Option Int
  humidity : Option Int
  rain_probability : Option Int
  description : Option String
deriving DecidableEq, Repr

/-- Location entry from `get_location` (only `display_name` is read by the
commute formatter, via `.get("display_name", default)`). -/
structure LocationData where
  display_name : Option String
deriving DecidableEq, Repr

/-- Dictionary returned by `get_commute_weather`. -/
structure CommuteData where
  home : Option WeatherData
  office : Option WeatherData
  home_location : Option LocationData
  office_location : Option LocationData
deriving DecidableEq, Repr

/-- News item as built by `get_news_from_api` / `get_news_from_rss`; the
`headline` and `summary` keys are only added later by `get_news_briefing`. -/
structure NewsItem where
  title : String
  description : String
  url : String
  source : String
  published_at : String
  category : String
  headline : Option String := none
  summary : Option String := none
deriving DecidableEq, Repr

/-- Calendar event dictionary as consumed by the schedule and evening
formatters (`.get` defaults: `start` `""`, `time` `"시간 미정"`, `title`
`"제목 없음"`, `location` `""`, `important` `False`). -/
structure CalEvent where
  start : Option String
  time : Option String
  title : Option String
  location : Option String
  important : Option Bool
deriving DecidableEq, Repr

/-- Content recommendation entry from `get_content_recommendations`. -/
structure RecItem where
  type : Option String
  title : Option String
  description : Option String
deriving DecidableEq, Repr

/-- The `schedule` sub-dictionary of an evening briefing
(`get_evening_schedule`). -/
structure EveningSchedule where
  evening_events : List CalEvent
  tomorrow_preview : List CalEvent
  has_evening_plans : Bool
  has_tomorrow_important : Bool
deriving DecidableEq, Repr

/-- Dictionary returned by `get_evening_briefing`. -/
structure EveningBriefing where
  schedule : EveningSchedule
  recommendations : List RecItem
deriving DecidableEq, Repr

/-- A project entry (title plus checklist next actions). -/
structure ProjectItem where
  title : Option String
  next_actions : List String
deriving DecidableEq, Repr

/-- Dictionary returned by `get_project_reminders`. -/
structure ProjectReminders where
  projects : List ProjectItem
  has_projects : Bool
  message : Option String
deriving DecidableEq, Repr

/-! ### Deterministic formatters (`src/bot/messages.py`)

f-strings become explicit concatenation; `{x}` interpolation of an
`Option Int` field read with default `"N/A"` is `showIntField`, and of an
`Option Int` field read with default `0` is `toString` of `getD 0`. -/

/-- Rendering of `dict.get(key, "N/A")` interpolated into an f-string, for a
key holding an int when present. -/
def showIntField (x : Option Int) : String :=
  match x with
  | some v => toString v
  | none => "N/A"

/-- One location block of `format_commute_message` (the `if home_weather:`
and `if office_weather:` bodies are this same code with the location name
substituted). -/
def commuteBlock (name : String) (weather : Option WeatherData) : String :=
  match weather with
  | some w =>
    "📍 " ++ name ++ " 날씨:\n" ++
    "- " ++ showIntField w.temp ++ "°C (체감 " ++ showIntField w.feels_like ++ "°C)\n" ++
    "- " ++ w.description.getD "" ++ "\n" ++
    "- 강수확률 " ++ toString (w.rain_probability.getD 0) ++ "%\n\n"
  | none => "📍 " ++ name ++ " 날씨 정보를 가져올 수 없어요\n\n"

/-- `home_weather.get("rain_probability", 0) if home_weather else 0`. -/
def rainOf (weather : Option WeatherData) : Int :=
  match weather with
  | some w => w.rain_probability.getD 0
  | none => 0

/-- `format_commute_message` (messages.py lines 4-65), `llm_text` branch
included. -/
def format_commute_message (commute_data : CommuteData)
    (llm_text : Option String := none) : String :=
  if pyTruthy llm_text then llm_text.getD "" else
  let home_name := (commute_data.home_location.getD ⟨none⟩).display_name.getD "집"
  let office_name := (commute_data.office_location.getD ⟨none⟩).display_name.getD "회사"
  let message := "🚗 출근 준비 알림\n\n" ++
    commuteBlock home_name commute_data.home ++
    commuteBlock office_name commute_data.office
  let max_rain_prob := max (rainOf commute_data.home) (rainOf commute_data.office)
  if 30 ≤ max_rain_prob then message ++ "☂️ 우산을 챙기세요!"
  else message ++ "☂️ 우산은 필요 없어요"

/-- `format_weather_message` (messages.py lines 68-100), `llm_text` branch
included.  `humidity` is read by the Python code but never rendered. -/
def format_weather_message (weather_data : WeatherData)
    (llm_text : Option String := none) : String :=
  if pyTruthy llm_text then llm_text.getD "" else
  let temp := showIntField weather_data.temp
  let feels_like := showIntField weather_data.feels_like
  let description := weather_data.description.getD ""
  let rain_prob := weather_data.rain_probability.getD 0
  let message := "🌤 좋은 아침이에요!\n\n" ++
    "오늘 서울 날씨:\n" ++
    "- 현재 " ++ temp ++ "°C (체감 " ++ feels_like ++ "°C)\n" ++
    "- " ++ description ++ "\n" ++
    "- 강수확률 " ++ toString rain_prob ++ "%\n"
  if 30 ≤ rain_prob then message ++ "\n☂️ 우산을 챙기세요!"
  else message ++ "\n☂️ 우산은 필요 없어요"

/-- One numbered entry of the news message body (loop body of
`format_news_message`, with `i` the 1-based index). -/
def newsEntry (i : Nat) (item : NewsItem) : String :=
  let summary := item.summary.getD ""
  toString i ++ "️⃣ [" ++ item.category ++ "] " ++ item.title ++ "\n" ++
  (if summary ≠ "" then "   " ++ pyTake 150 summary ++ "\n" else "") ++
  (if item.url ≠ "" then "   🔗 " ++ item.url ++ "\n" else "") ++
  "\n"

/-- Numbered rendering of `news_items[:5]` starting at index `i`. -/
def newsEntries (i : Nat) : List NewsItem → String
  | [] => ""
  | item :: rest => newsEntry i item ++ newsEntries (i+1) rest

/-- `format_news_message` (messages.py lines 103-130). -/
def format_news_message (news_items : List NewsItem) : String :=
  "📰 오늘의 테크 뉴스\n\n" ++ newsEntries 1 (news_items.take 5)

/-- Loop body of `format_schedule_message`: one rendered event line. -/
def scheduleLine (event : CalEvent) : String :=
  let time := event.time.getD "시간 미정"
  let title := event.title.getD "제목 없음"
  let location := event.location.getD ""
  let important := event.important.getD false
  (if important then "⭐ " else "") ++ time ++ " - " ++ title ++
  (if location ≠ "" then " (" ++ location ++ ")" else "") ++ "\n"

/-- Sort of `format_schedule_message`: Python's stable `sorted` with key
`e.get("start", "") or ""` under the code-point string order. -/
def sortEvents (events : List CalEvent) : List CalEvent :=
  events.mergeSort (fun a b => pyStrLe (a.start.getD "") (b.start.getD ""))

/-- Concatenated loop of `format_schedule_message`. -/
def scheduleLines : List CalEvent → String
  | [] => ""
  | e :: rest => scheduleLine e ++ scheduleLines rest

/-- `format_schedule_message` (messages.py lines 133-165). -/
def format_schedule_message (events : List CalEvent) : String :=
  let message := "📅 오늘 일정 브리핑\n\n"
  if events.isEmpty then message ++ "오늘 예정된 일정이 없어요! 😊"
  else message ++ scheduleLines (sortEvents events)

/-- Loop body of the evening-events block of `format_evening_message`. -/
def eveningEventLine (event : CalEvent) : String :=
  let time := event.time.getD "시간 미정"
  let title := event.title.getD "제목 없음"
  let location := event.location.getD ""
  "- " ++ time ++ " " ++ title ++
  (if location ≠ "" then " (" ++ location ++ ")" else "") ++ "\n"

/-- Concatenated evening-events loop (`evening_events[:5]`). -/
def eveningEventLines : List CalEvent → String
  | [] => ""
  | e :: rest => eveningEventLine e ++ eveningEventLines rest

/-- Evening-events section of `format_evening_message` (messages.py lines
185-198). -/
def eveningSection (evening_events : List CalEvent) : String :=
  if evening_events.isEmpty then "오늘 저녁 예정된 일정이 없어요! 😊\n\n"
  else "📅 오늘 저녁 일정:\n" ++ eveningEventLines (evening_events.take 5) ++ "\n"

/-- Loop body of the tomorrow-preview block of `format_evening_message`. -/
def tomorrowLine (event : CalEvent) : String :=
  "- " ++ event.time.getD "시간 미정" ++ " " ++ event.title.getD "제목 없음" ++ "\n"

/-- Concatenated tomorrow-preview loop. -/
def tomorrowLines : List CalEvent → String
  | [] => ""
  | e :: rest => tomorrowLine e ++ tomorrowLines rest

/-- Tomorrow-preview section of `format_evening_message` (messages.py lines
201-207): rendered only when the preview is non-empty, otherwise nothing is
emitted. -/
def tomorrowSection (tomorrow_preview : List CalEvent) : String :=
  if tomorrow_preview.isEmpty then ""
  else "📆 내일 주요 일정 미리보기:\n" ++ tomorrowLines tomorrow_preview ++ "\n"

/-- Loop body of the recommendations block of `format_evening_message`. -/
def recLine (rec : RecItem) : String :=
  let rec_type := if rec.type = some "article" then "📰" else "🎬"
  let title := rec.title.getD ""
  let description := rec.description.getD ""
  rec_type ++ " " ++ title ++ "\n" ++
  (if description ≠ "" then "   " ++ description ++ "\n" else "")

/-- Concatenated recommendations loop (`recommendations[:2]`). -/
def recLines : List RecItem → String
  | [] => ""
  | r :: rest => recLine r ++ recLines rest

/-- Recommendations section of `format_evening_message` (messages.py lines
210-220): rendered only when non-empty. -/
def recSection (recommendations : List RecItem) : String :=
  if recommendations.isEmpty then ""
  else "💡 퇴근길 추천:\n" ++ recLines (recommendations.take 2) ++ "\n"

/-- `format_evening_message` (messages.py lines 168-224). -/
def format_evening_message (briefing : EveningBriefing) : String :=
  "🌆 퇴근 시간 알림\n\n" ++
  eveningSection briefing.schedule.evening_events ++
  tomorrowSection briefing.schedule.tomorrow_preview ++
  recSection briefing.recommendations ++
  "오늘 하루도 수고하셨어요! 🌙"

/-- Loop body of `format_project_message` (numbered project block with up to
three next actions). -/
def projectEntry (i : Nat) (project : ProjectItem) : String :=
  let title := project.title.getD "제목 없음"
  toString i ++ "️⃣ **" ++ title ++ "**\n" ++
  (if project.next_actions.isEmpty then "   다음 액션을 추가해보세요! ✨\n"
   else "   다음 액션:\n" ++
     String.join ((project.next_actions.take 3).map (fun a => "   - " ++ a ++ "\n"))) ++
  "\n"

/-- Numbered rendering of `projects[:5]` starting at index `i`. -/
def projectEntries (i : Nat) : List ProjectItem → String
  | [] => ""
  | p :: rest => projectEntry i p ++ projectEntries (i+1) rest

/-- `format_project_message` (messages.py lines 227-266). -/
def format_project_message (reminders : ProjectReminders) : String :=
  let message := "🌙 저녁 프로젝트 리마인더\n\n"
  if ¬ reminders.has_projects ∨ reminders.projects.isEmpty then
    message ++ reminders.message.getD
      "현재 진행 중인 프로젝트가 없어요. 새로운 프로젝트를 시작해볼까요? 🚀"
  else
    message ++ "진행 중인 프로젝트 " ++ toString reminders.projects.length ++ "개:\n\n" ++
    projectEntries 1 (reminders.projects.take 5) ++
    "오늘 저녁 시간을 활용해서 조금씩 진행해보세요! 💪"

/-! ### News service (`src/services/news.py`)

`html.unescape` (stdlib, no repository logic) is an oracle parameter; the
tag-removal regex `<[^>]+>`, whitespace collapsing, title normalization,
seen-URL filtering and the briefing assembly are embedded from the source.
The raw fetch (`all_news`, gathered over HTTP) and the LLM transport
(`generate_text`) are parameters. -/

/-- Scanner for the tail of a `<[^>]+>` match: after at least one non-`>`
character has been read, consume up to and including the first `>`. -/
def dropTagGo : List Char → Option (List Char)
  | [] => none
  | c :: rest => if c = '>' then some rest else dropTagGo rest

/-- Attempt to match `[^>]+>` at the head of the list (the characters
following a `<`); returns the remainder after the closing `>`. -/
def dropTag : List Char → Option (List Char)
  | [] => none
  | c :: rest => if c = '>' then none else dropTagGo rest

/-- `_TAG_RE.sub(" ", t)` scanner with explicit fuel (one unit per consumed
leading character; `fuel = l.length` always suffices because every step
shortens the list). -/
def stripTagsCore : Nat → List Char → List Char
  | _, [] => []
  | 0, l => l
  | fuel+1, c :: rest =>
    if c = '<' then
      match dropTag rest with
      | some rem => ' ' :: stripTagsCore fuel rem
      | none => c :: stripTagsCore fuel rest
    else c :: stripTagsCore fuel rest

/-- `_TAG_RE.sub(" ", t)`: replace every `<[^>]+>` match by a space. -/
def stripTags (l : List Char) : List Char := stripTagsCore l.length l

theorem dropWhile_length_le {α : Type} (p : α → Bool) (l : List α) :
    (l.dropWhile p).length ≤ l.length := by
  induction l with
  | nil => simp
  | cons a l ih =>
    rw [List.dropWhile]
    by_cases h : p a
    · rw [h]
      exact Nat.le_succ_of_le ih
    · rw [Bool.not_eq_true] at h
      rw [h]

/-- `re.sub(r"\s+", " ", t)` scanner with explicit fuel. -/
def collapseWsCore : Nat → List Char → List Char
  | _, [] => []
  | 0, l => l
  | fuel+1, c :: rest =>
    if isPySpace c then ' ' :: collapseWsCore fuel (rest.dropWhile isPySpace)
    else c :: collapseWsCore fuel rest

/-- `re.sub(r"\s+", " ", t)`: collapse every whitespace run to one space. -/
def collapseWs (l : List Char) : List Char := collapseWsCore l.length l

/-- `_clean_text` (news.py lines 52-66); `unescape` abstracts
`html.unescape`. -/
def clean_text (unescape : String → String) (text : String) : String :=
  if text = "" then ""
  else
    let t := pyStrip text
    let t := unescape t
    let t := String.mk (stripTags t.data)
    String.mk (pyStripChars (collapseWs t.data))

/-- Python's ASCII `str.lower`, applied to titles before dedup comparison. -/
def pyLower (s : String) : String := String.mk (s.data.map Char.toLower)

/-- `item.get("title", "").lower().strip()`: the normalized secondary dedup
key. -/
def pyNormTitle (t : String) : String := pyStrip (pyLower t)

/-! #### `summarize_news_headline` (`src/services/llm.py` lines 87-136)

The Gemini call `generate_text(prompt)` is an oracle whose raw output is the
`text` argument here (it returns `""` on any transport failure); the
deterministic post-processing of that output is embedded below. -/

/-- `str.splitlines` restricted to `\n` separators. -/
def splitOnNl : List Char → List (List Char)
  | [] => [[]]
  | c :: rest =>
    if c = '\n' then [] :: splitOnNl rest
    else
      match splitOnNl rest with
      | [] => [[c]]
      | l :: ls => (c :: l) :: ls

/-- First line whose strip is non-empty, stripped (`""` if none). -/
def firstNonEmptyLine : List (List Char) → List Char
  | [] => []
  | l :: rest =>
    let candidate := pyStripChars l
    if candidate.isEmpty then firstNonEmptyLine rest else candidate

/-- Opening quote characters accepted by the wrapper-strip step. -/
def isOpenQuote (c : Char) : Bool := c = '"' || c = '“' || c = '‘' || c = '\''

/-- Closing quote characters accepted by the wrapper-strip step. -/
def isCloseQuote (c : Char) : Bool := c = '"' || c = '”' || c = '’' || c = '\''

/-- Wrapper-quote removal: `line[1:-1].strip()` when the line starts and ends
with a quote and has length at least 2. -/
def stripWrappingQuotes (line : List Char) : List Char :=
  match line with
  | [] => []
  | c :: rest =>
    let lastOk : Bool :=
      match (c :: rest).getLast? with
      | some d => isCloseQuote d
      | none => false
    if isOpenQuote c && decide (2 ≤ (c :: rest).length) && lastOk then
      pyStripChars ((c :: rest).drop 1).dropLast
    else c :: rest

/-- `summarize_news_headline`: post-processing of the raw oracle output
`text` (first non-empty line, wrapper-quote strip, hard cap with ellipsis at
`max_chars`). -/
def summarize_news_headline (text : String) (max_chars : Nat := 40) : String :=
  if text = "" then "" else
  let line := firstNonEmptyLine (splitOnNl text.data)
  let line := stripWrappingQuotes line
  let line :=
    if max_chars ≠ 0 ∧ max_chars < line.length then
      if max_chars ≤ 1 then line.take max_chars
      else pyRstripChars (line.take (max_chars - 1)) ++ ['…']
    else line
  String.mk line

/-! #### Seen-URL store (`_get_seen_news_urls` / `_save_seen_news_urls`,
news.py lines 241-309)

The persisted Gist blob holds `seen_urls` as `(url, iso_timestamp)` pairs;
ISO timestamps compared as strings (monotone for a fixed zone and format)
are embedded as `Nat` values, with the 7-day window as a `Nat` span. -/

/-- The rolling window (7 days, in the timestamp unit). -/
def newsWindow : Nat := 7

/-- `(datetime.now(KST) - timedelta(days=7)).isoformat()`. -/
def newsCutoff (now : Nat) : Nat := now - newsWindow

/-- `_get_seen_news_urls`: keep entries dated within the window
(`date >= cutoff_date`) and project to the URL set. -/
def get_seen_news_urls (state : List (String × Nat)) (now : Nat) : List String :=
  (state.filter (fun p => decide (newsCutoff now ≤ p.2))).map Prod.fst

/-- `_save_seen_news_urls`: reload the persisted set (read-before-write),
merge the new URLs in, and rewrite every member with the current
timestamp. -/
def save_seen_news_urls (state : List (String × Nat)) (urls : List String)
    (now : Nat) : List (String × Nat) :=
  ((get_seen_news_urls state now).union urls).map (fun u => (u, now))

/-! #### `get_news_briefing` (news.py lines 312-460) -/

/-- Main filtering loop of `get_news_briefing`: drop seen URLs, drop items
with an empty URL or a normalized title shorter than 10, dedup by normalized
title, stop once `max_items` are collected.  Returns the accepted items and
the accumulated normalized-title set. -/
def filterUnseen (max_items : Nat) (seen_urls : List String) :
    List NewsItem → List String → List NewsItem → List NewsItem × List String
  | [], seen_titles, acc => (acc, seen_titles)
  | item :: rest, seen_titles, acc =>
    let url := item.url
    let title := pyNormTitle item.title
    if url ∈ seen_urls then filterUnseen max_items seen_urls rest seen_titles acc
    else if url = "" ∨ title.length < 10 then
      filterUnseen max_items seen_urls rest seen_titles acc
    else if title ∈ seen_titles then
      filterUnseen max_items seen_urls rest seen_titles acc
    else
      let acc2 := acc ++ [item]
      let titles2 := seen_titles ++ [title]
      if max_items ≤ acc2.length then (acc2, titles2)
      else filterUnseen max_items seen_urls rest titles2 acc2

/-- Last-resort loop of `get_news_briefing` over `all_news[:max_items]` when
everything was filtered out: re-admit items regardless of the seen-URL set,
still requiring a URL, a 10-character normalized title, and title
uniqueness. -/
def fallbackFill (max_items : Nat) :
    List NewsItem → List String → List NewsItem → List NewsItem
  | [], _, acc => acc
  | item :: rest, seen_titles, acc =>
    let url := item.url
    let title := pyNormTitle item.title
    if url ≠ "" ∧ 10 ≤ title.length then
      if title ∉ seen_titles then
        let acc2 := acc ++ [item]
        if max_items ≤ acc2.length then acc2
        else fallbackFill max_items rest (seen_titles ++ [title]) acc2
      else fallbackFill max_items rest seen_titles acc
    else fallbackFill max_items rest seen_titles acc

/-- Headline decoration of one briefing item (news.py lines 430-448): keep a
truthy pre-existing headline, otherwise ask the oracle (`llm` is the
`generate_text` output for the headline prompt, given the 200/280-truncated
cleaned title and description) and post-process it; fall back to the cleaned
title, then the 40-character description prefix. -/
def decorateItem (llm : String → String → String) (unescape : String → String)
    (item : NewsItem) : NewsItem :=
  if pyTruthy item.headline then item
  else
    let raw_title := clean_text unescape item.title
    let raw_desc := clean_text unescape item.description
    let headline :=
      summarize_news_headline (llm (pyTake 200 raw_title) (pyTake 280 raw_desc)) 40
    let headline :=
      if headline ≠ "" then headline
      else if raw_title ≠ "" then raw_title
      else if raw_desc ≠ "" then pyTake 40 raw_desc
      else ""
    { item with headline := some headline, summary := some (item.summary.getD "") }

/-- `get_news_briefing` filtering and decoration phase, given the already
fetched raw list `all_news` and the loaded seen-URL set. -/
def get_news_briefing (max_items : Nat) (seen_urls : List String)
    (all_news : List NewsItem) (llm : String → String → String)
    (unescape : String → String) : List NewsItem :=
  if all_news.isEmpty then []
  else
    let pr := filterUnseen max_items seen_urls all_news [] []
    let unique_news :=
      if pr.1.isEmpty then
        fallbackFill max_items (all_news.take max_items) pr.2 []
      else pr.1
    (unique_news.map (decorateItem llm unescape)).take max_items

/-! ### Evening service (`src/services/evening.py`)

`datetime.fromisoformat` (stdlib) is an oracle `parse` returning the parsed
instant as a `Nat` (or `none` when it raises); `evening_start` is today's
18:00 in the same scale. -/

/-- `start.replace("Z", "+00:00")`. -/
def replaceZUtc (s : String) : String :=
  String.mk (s.data.foldr
    (fun c acc => if c = 'Z' then '+' :: '0' :: '0' :: ':' :: '0' :: '0' :: acc
      else c :: acc) [])

/-- Filter predicate of `get_evening_schedule` (evening.py lines 25-38): an
event with a start is kept when the start is a date-time (`"T" in start`)
parsing at or after 18:00, or when it is an all-day (date-only) value; a
parse failure drops the event (`except: pass`), and an event with no start
is dropped (`if start:`). -/
def isEveningEvent (parse : String → Option Nat) (evening_start : Nat)
    (event : CalEvent) : Bool :=
  let start := event.start.getD ""
  if start ≠ "" then
    if start.data.contains 'T' then
      match parse (replaceZUtc start) with
      | some event_time => decide (evening_start ≤ event_time)
      | none => false
    else true
  else false

/-- `get_evening_schedule` (evening.py lines 11-49). -/
def get_evening_schedule (parse : String → Option Nat) (evening_start : Nat)
    (today_events tomorrow_events : List CalEvent) : EveningSchedule :=
  let evening_events := today_events.filter (isEveningEvent parse evening_start)
  let tomorrow_important :=
    (tomorrow_events.filter (fun e => e.important.getD false)).take 3
  { evening_events := evening_events
    tomorrow_preview := tomorrow_important
    has_evening_plans := decide (0 < evening_events.length)
    has_tomorrow_important := decide (0 < tomorrow_important.length) }

/-- `get_content_recommendations` (evening.py lines 52-79): a fixed
placeholder list. -/
def get_content_recommendations : List RecItem :=
  [{ type := some "article", title := some "오늘 읽을만한 기술 아티클",
     description := some "AI/ML 트렌드 관련 최신 글들을 추천해드려요" },
   { type := some "video", title := some "인기 기술 유튜브 영상",
     description := some "요즘 핫한 개발/기술 관련 영상" }]

/-- `get_evening_briefing` (evening.py lines 82-96). -/
def get_evening_briefing (parse : String → Option Nat) (evening_start : Nat)
    (today_events tomorrow_events : List CalEvent) : EveningBriefing :=
  { schedule := get_evening_schedule parse evening_start today_events tomorrow_events
    recommendations := get_content_recommendations }

/-! ### Command layer (`src/main.py`)

Each command is a function of the values its collaborators return during the
invocation (adapter results, LLM outputs with `""` for a failed or skipped
generation, and whether `send_message_sync` succeeds); it yields the list of
messages handed to the delivery sink and the process exit code. -/

/-- Dictionary returned by `get_schedule_briefing` as read by
`schedule_command`. -/
structure ScheduleBriefing where
  events : List CalEvent
  count : Nat
  important_count : Nat
deriving Repr

/-- The external values one scheduled invocation observes. -/
structure CmdEnv where
  weather : Option WeatherData
  llm_weather : String
  news_items : List NewsItem
  schedule : ScheduleBriefing
  schedule_llm : String
  evening : EveningBriefing
  evening_llm : String
  night : ProjectReminders
  night_llm : String
  commute : CommuteData
  commute_llm : String
  send_ok : Bool

/-- Outcome of one command: the messages handed to `send_message_sync`, and
the value returned to `sys.exit`. -/
structure CmdResult where
  sent : List String
  code : Nat
deriving DecidableEq, Repr

/-- Suffix of `l` after the first occurrence of `sep` (`none` when `sep`
does not occur): `message.split(sep, 1)[-1]` when `sep in message`. -/
def afterFirstSep (sep : List Char) : List Char → Option (List Char)
  | [] => none
  | c :: rest =>
    if sep.isPrefixOf (c :: rest) then some ((c :: rest).drop sep.length)
    else afterFirstSep sep rest

/-- The LLM-enhancement combiner of `evening_command` / `night_command`:
`enhanced + "\n\n" + message.split("\n\n", 1)[-1] if "\n\n" in message else
message`. -/
def combineWithTail (enhanced message : String) : String :=
  match afterFirstSep "\n\n".data message.data with
  | some tail => enhanced ++ "\n\n" ++ String.mk tail
  | none => message

/-- `weather_command` (main.py lines 19-57): an absent weather record aborts
with exit 1 and no delivery. -/
def weather_command (env : CmdEnv) : CmdResult :=
  match env.weather with
  | none => { sent := [], code := 1 }
  | some weather_data =>
    let message :=
      if env.llm_weather ≠ "" then env.llm_weather
      else format_weather_message weather_data
    { sent := [message], code := if env.send_ok then 0 else 1 }

/-- `news_command` (main.py lines 60-98): an empty briefing still sends a
fallback message. -/
def news_command (env : CmdEnv) : CmdResult :=
  if env.news_items.isEmpty then
    { sent := ["📰 오늘의 뉴스\n\n뉴스를 가져오는 중 문제가 발생했어요. 잠시 후 다시 시도해주세요."],
      code := if env.send_ok then 0 else 1 }
  else
    { sent := [format_news_message env.news_items],
      code := if env.send_ok then 0 else 1 }

/-- `schedule_command` (main.py lines 101-178): zero events still sends a
message; with important events the LLM may replace the message. -/
def schedule_command (env : CmdEnv) : CmdResult :=
  let events := env.schedule.events
  if events.isEmpty then
    { sent := ["📅 오늘 일정 브리핑\n\n오늘 예정된 일정이 없어요! 😊"],
      code := if env.send_ok then 0 else 1 }
  else
    let message := format_schedule_message events
    let message :=
      if 0 < env.schedule.important_count ∧ env.schedule_llm ≠ "" then
        env.schedule_llm
      else message
    { sent := [message], code := if env.send_ok then 0 else 1 }

/-- `evening_command` (main.py lines 181-222). -/
def evening_command (env : CmdEnv) : CmdResult :=
  let message := format_evening_message env.evening
  let message :=
    if (env.evening.schedule.has_evening_plans
        || env.evening.schedule.has_tomorrow_important)
        && env.evening_llm ≠ "" then
      combineWithTail env.evening_llm message
    else message
  { sent := [message], code := if env.send_ok then 0 else 1 }

/-- `night_command` (main.py lines 225-269). -/
def night_command (env : CmdEnv) : CmdResult :=
  let message := format_project_message env.night
  let message :=
    if env.night.has_projects && env.night_llm ≠ "" then
      combineWithTail env.night_llm message
    else message
  { sent := [message], code := if env.send_ok then 0 else 1 }

/-- `commute_command` (main.py lines 272-331): both locations absent aborts
with exit 1 and no delivery; with both present the LLM may replace the
message. -/
def commute_command (env : CmdEnv) : CmdResult :=
  if env.commute.home.isNone && env.commute.office.isNone then
    { sent := [], code := 1 }
  else
    let message := format_commute_message env.commute
    let message :=
      if env.commute.home.isSome && env.commute.office.isSome
          && env.commute_llm ≠ "" then
        env.commute_llm
      else message
    { sent := [message], code := if env.send_ok then 0 else 1 }

/-! ### Claim C4: weather umbrella threshold -/

theorem showIntField_ascii (x : Option Int) :
    ∀ c ∈ (showIntField x).data, c.toNat < 128 := by
  cases x with
  | none =>
    intro c hc
    simp [showIntField] at hc
    rcases hc with rfl | rfl | rfl <;> decide
  | some v => exact intToString_ascii v

/-- Normal form of the deterministic branch of `format_weather_message`. -/
theorem format_weather_eq (w : WeatherData) :
    format_weather_message w =
      (if 30 ≤ w.rain_probability.getD 0 then
        "🌤 좋은 아침이에요!\n\n" ++ "오늘 서울 날씨:\n" ++
        "- 현재 " ++ showIntField w.temp ++ "°C (체감 " ++
        showIntField w.feels_like ++ "°C)\n" ++
        "- " ++ w.description.getD "" ++ "\n" ++
        "- 강수확률 " ++ toString (w.rain_probability.getD 0) ++ "%\n" ++
        "\n☂️ 우산을 챙기세요!"
      else
        "🌤 좋은 아침이에요!\n\n" ++ "오늘 서울 날씨:\n" ++
        "- 현재 " ++ showIntField w.temp ++ "°C (체감 " ++
        showIntField w.feels_like ++ "°C)\n" ++
        "- " ++ w.description.getD "" ++ "\n" ++
        "- 강수확률 " ++ toString (w.rain_probability.getD 0) ++ "%\n" ++
        "\n☂️ 우산은 필요 없어요") := rfl

/-- C4: for every weather record whose description does not itself use the
syllable `챙`, the deterministic weather formatter output contains
`우산을 챙기세요` iff `rain_probability ≥ 30` (so in particular at exactly
30), and otherwise contains `우산은 필요 없어요`. -/
theorem C4_umbrella_threshold (w : WeatherData)
    (hdesc : '챙' ∉ (w.description.getD "").data) :
    (strContains (format_weather_message w) "우산을 챙기세요" ↔
      30 ≤ w.rain_probability.getD 0) ∧
    (w.rain_probability.getD 0 < 30 →
      strContains (format_weather_message w) "우산은 필요 없어요") := by
  by_cases hr : 30 ≤ w.rain_probability.getD 0
  · have hc : strContains (format_weather_message w) "우산을 챙기세요" := by
      rw [format_weather_eq w, if_pos hr]
      exact strContains_append_right _ _ _ (by decide)
    exact ⟨⟨fun _ => hr, fun _ => hc⟩, fun hlt => absurd hr (by omega)⟩
  · have hnot : ¬ strContains (format_weather_message w) "우산을 챙기세요" := by
      rw [format_weather_eq w, if_neg hr]
      apply not_strContains_of_char _ _ '챙' (by decide)
      repeat' apply char_not_mem_append
      all_goals first
        | decide
        | exact hdesc
        | exact char_not_mem_of_ascii _ _ (showIntField_ascii _) (by decide)
        | exact char_not_mem_of_ascii _ _ (intToString_ascii _) (by decide)
    have hc2 : strContains (format_weather_message w) "우산은 필요 없어요" := by
      rw [format_weather_eq w, if_neg hr]
      exact strContains_append_right _ _ _ (by decide)
    exact ⟨⟨fun h => absurd h hnot, fun h => absurd h hr⟩, fun _ => hc2⟩

/-! ### Claim C5: commute formatter -/

/-- Normal form of the deterministic branch of `format_commute_message`. -/
theorem format_commute_eq (d : CommuteData) :
    format_commute_message d =
      (if 30 ≤ max (rainOf d.home) (rainOf d.office) then
        "🚗 출근 준비 알림\n\n" ++
        commuteBlock ((d.home_location.getD ⟨none⟩).display_name.getD "집") d.home ++
        commuteBlock ((d.office_location.getD ⟨none⟩).display_name.getD "회사") d.office ++
        "☂️ 우산을 챙기세요!"
      else
        "🚗 출근 준비 알림\n\n" ++
        commuteBlock ((d.home_location.getD ⟨none⟩).display_name.getD "집") d.home ++
        commuteBlock ((d.office_location.getD ⟨none⟩).display_name.getD "회사") d.office ++
        "☂️ 우산은 필요 없어요") := rfl

theorem commuteBlock_chae_free (name : String) (w : Option WeatherData)
    (hn : '챙' ∉ name.data)
    (hd : ∀ x, w = some x → '챙' ∉ (x.description.getD "").data) :
    '챙' ∉ (commuteBlock name w).data := by
  cases w with
  | none =>
    show '챙' ∉ ("📍 " ++ name ++ " 날씨 정보를 가져올 수 없어요\n\n").data
    repeat' apply char_not_mem_append
    all_goals first | decide | exact hn
  | some x =>
    show '챙' ∉ ("📍 " ++ name ++ " 날씨:\n" ++
      "- " ++ showIntField x.temp ++ "°C (체감 " ++ showIntField x.feels_like ++ "°C)\n" ++
      "- " ++ x.description.getD "" ++ "\n" ++
      "- 강수확률 " ++ toString (x.rain_probability.getD 0) ++ "%\n\n").data
    repeat' apply char_not_mem_append
    all_goals first
      | decide
      | exact hn
      | exact hd x rfl
      | exact char_not_mem_of_ascii _ _ (showIntField_ascii _) (by decide)
      | exact char_not_mem_of_ascii _ _ (intToString_ascii _) (by decide)

/-- C5: the commute formatter embeds each location's block (its weather
lines when the record is present, the `unavailable` line when absent, each
depending only on that location's data), and recommends the umbrella iff the
maximum of the two rain probabilities (absent location counting 0) is at
least 30.  The cleanliness hypotheses say the location names and
descriptions do not themselves use the syllable `챙`. -/
theorem C5_commute_blocks_and_umbrella (d : CommuteData)
    (hh : '챙' ∉ (((d.home_location.getD ⟨none⟩).display_name.getD "집")).data)
    (ho : '챙' ∉ (((d.office_location.getD ⟨none⟩).display_name.getD "회사")).data)
    (hdh : ∀ x, d.home = some x → '챙' ∉ (x.description.getD "").data)
    (hdo : ∀ x, d.office = some x → '챙' ∉ (x.description.getD "").data) :
    strContains (format_commute_message d)
      (commuteBlock ((d.home_location.getD ⟨none⟩).display_name.getD "집") d.home) ∧
    strContains (format_commute_message d)
      (commuteBlock ((d.office_location.getD ⟨none⟩).display_name.getD "회사") d.office) ∧
    (strContains (format_commute_message d) "우산을 챙기세요" ↔
      30 ≤ max (rainOf d.home) (rainOf d.office)) ∧
    (max (rainOf d.home) (rainOf d.office) < 30 →
      strContains (format_commute_message d) "우산은 필요 없어요") := by
  have key : ∀ pat : String,
      strContains ("🚗 출근 준비 알림\n\n" ++
        commuteBlock ((d.home_location.getD ⟨none⟩).display_name.getD "집") d.home ++
        commuteBlock ((d.office_location.getD ⟨none⟩).display_name.getD "회사") d.office) pat →
      strContains (format_commute_message d) pat := by
    intro pat hp
    rw [format_commute_eq d]
    by_cases hr : 30 ≤ max (rainOf d.home) (rainOf d.office)
    · rw [if_pos hr]; exact strContains_append_left _ _ _ hp
    · rw [if_neg hr]; exact strContains_append_left _ _ _ hp
  refine ⟨?_, ?_, ?_, ?_⟩
  · exact key _ (strContains_append_left _ _ _
      (strContains_append_right _ _ _ (strContains_self _)))
  · exact key _ (strContains_append_right _ _ _ (strContains_self _))
  · by_cases hr : 30 ≤ max (rainOf d.home) (rainOf d.office)
    · have hc : strContains (format_commute_message d) "우산을 챙기세요" := by
        rw [format_commute_eq d, if_pos hr]
        exact strContains_append_right _ _ _ (by decide)
      exact ⟨fun _ => hr, fun _ => hc⟩
    · have hnot : ¬ strContains (format_commute_message d) "우산을 챙기세요" := by
        rw [format_commute_eq d, if_neg hr]
        apply not_strContains_of_char _ _ '챙' (by decide)
        apply char_not_mem_append
        · apply char_not_mem_append
          · apply char_not_mem_append
            · decide
            · exact commuteBlock_chae_free _ _ hh hdh
          · exact commuteBlock_chae_free _ _ ho hdo
        · decide
      exact ⟨fun h => absurd h hnot, fun h => absurd h hr⟩
  · intro hlt
    rw [format_commute_eq d, if_neg (by omega)]
    exact strContains_append_right _ _ _ (by decide)

/-- Sample weather record at the claimed threshold boundary (rain 30). -/
def weatherAt30 : WeatherData :=
  { temp := some 15, feels_like := some 12, humidity := some 50,
    rain_probability := some 30, description := some "맑음" }

/-- C4 witness: the umbrella equivalence instantiated at a concrete record
with `rain_probability = 30` (the boundary). -/
theorem C4_witness :
    (strContains (format_weather_message weatherAt30) "우산을 챙기세요" ↔
      30 ≤ weatherAt30.rain_probability.getD 0) ∧
    (weatherAt30.rain_probability.getD 0 < 30 →
      strContains (format_weather_message weatherAt30) "우산은 필요 없어요") :=
  C4_umbrella_threshold weatherAt30 (by decide)

/-- Sample commute data: rainy home record, office fetch failed. -/
def commuteSample : CommuteData :=
  { home := some ⟨some 5, some 2, some 80, some 40, some "비"⟩,
    office := none,
    home_location := some ⟨some "서울집"⟩,
    office_location := some ⟨some "판교"⟩ }

/-- C5 witness: the commute theorem instantiated at a concrete record with
one present and one absent location and maximum rain 40. -/
theorem C5_witness :
    strContains (format_commute_message commuteSample)
      (commuteBlock ((commuteSample.home_location.getD ⟨none⟩).display_name.getD "집")
        commuteSample.home) ∧
    strContains (format_commute_message commuteSample)
      (commuteBlock ((commuteSample.office_location.getD ⟨none⟩).display_name.getD "회사")
        commuteSample.office) ∧
    (strContains (format_commute_message commuteSample) "우산을 챙기세요" ↔
      30 ≤ max (rainOf commuteSample.home) (rainOf commuteSample.office)) ∧
    (max (rainOf commuteSample.home) (rainOf commuteSample.office) < 30 →
      strContains (format_commute_message commuteSample) "우산은 필요 없어요") :=
  C5_commute_blocks_and_umbrella commuteSample (by decide) (by decide)
    (by intro x hx; cases hx; decide) (by intro x hx; cases hx)

/-! ### Claim C8: formatter totality -/

theorem length_pos_left (a b : String) (h : 0 < a.length) :
    0 < (a ++ b).length := by
  rw [string_length_append]; omega

theorem pos_length_of_ne_empty (s : String) (h : s ≠ "") : 0 < s.length := by
  cases s with
  | mk data =>
    cases data with
    | nil => exact absurd rfl h
    | cons c cs => simp [String.length]

theorem format_weather_not_truthy (w : WeatherData) (llm : Option String)
    (h : pyTruthy llm = false) :
    format_weather_message w llm = format_weather_message w := by
  unfold format_weather_message
  rw [h]
  rfl

theorem format_weather_truthy (w : WeatherData) (t : String) (h : t ≠ "") :
    format_weather_message w (some t) = t := by
  unfold format_weather_message
  have hp : pyTruthy (some t) = true := by simp [pyTruthy, h]
  rw [hp]
  rfl

theorem format_commute_not_truthy (d : CommuteData) (llm : Option String)
    (h : pyTruthy llm = false) :
    format_commute_message d llm = format_commute_message d := by
  unfold format_commute_message
  rw [h]
  rfl

theorem format_commute_truthy (d : CommuteData) (t : String) (h : t ≠ "") :
    format_commute_message d (some t) = t := by
  unfold format_commute_message
  have hp : pyTruthy (some t) = true := by simp [pyTruthy, h]
  rw [hp]
  rfl

/-- C8: every deterministic formatter returns a non-empty string on every
input (empty and partial records included); the schedule formatter on an
empty list contains the no-events sentence, and the project formatter on a
`has_projects = false` record with no stored message contains the fixed
placeholder encouragement. -/
theorem C8_formatters_total :
    (∀ (w : WeatherData) (llm : Option String),
      0 < (format_weather_message w llm).length) ∧
    (∀ (d : CommuteData) (llm : Option String),
      0 < (format_commute_message d llm).length) ∧
    (∀ items : List NewsItem, 0 < (format_news_message items).length) ∧
    (∀ events : List CalEvent, 0 < (format_schedule_message events).length) ∧
    (∀ b : EveningBriefing, 0 < (format_evening_message b).length) ∧
    (∀ r : ProjectReminders, 0 < (format_project_message r).length) ∧
    strContains (format_schedule_message []) "오늘 예정된 일정이 없어요" ∧
    strContains (format_project_message ⟨[], false, none⟩)
      "현재 진행 중인 프로젝트가 없어요. 새로운 프로젝트를 시작해볼까요? 🚀" := by
  refine ⟨?_, ?_, ?_, ?_, ?_, ?_, ?_, ?_⟩
  · intro w llm
    by_cases h : pyTruthy llm = true
    · cases llm with
      | none => simp [pyTruthy] at h
      | some t =>
        have ht : t ≠ "" := by simpa [pyTruthy] using h
        rw [format_weather_truthy w t ht]
        exact pos_length_of_ne_empty t ht
    · rw [format_weather_not_truthy w llm (by simpa using h), format_weather_eq w]
      by_cases hr : 30 ≤ w.rain_probability.getD 0
      · rw [if_pos hr]
        repeat' apply length_pos_left
        decide
      · rw [if_neg hr]
        repeat' apply length_pos_left
        decide
  · intro d llm
    by_cases h : pyTruthy llm = true
    · cases llm with
      | none => simp [pyTruthy] at h
      | some t =>
        have ht : t ≠ "" := by simpa [pyTruthy] using h
        rw [format_commute_truthy d t ht]
        exact pos_length_of_ne_empty t ht
    · rw [format_commute_not_truthy d llm (by simpa using h), format_commute_eq d]
      by_cases hr : 30 ≤ max (rainOf d.home) (rainOf d.office)
      · rw [if_pos hr]
        repeat' apply length_pos_left
        decide
      · rw [if_neg hr]
        repeat' apply length_pos_left
        decide
  · intro items
    unfold format_news_message
    apply length_pos_left
    decide
  · intro events
    unfold format_schedule_message
    by_cases h : events.isEmpty
    · rw [if_pos h]
      apply length_pos_left
      decide
    · rw [if_neg h]
      apply length_pos_left
      decide
  · intro b
    unfold format_evening_message
    repeat' apply length_pos_left
    decide
  · intro r
    unfold format_project_message
    by_cases h : (¬ r.has_projects ∨ r.projects.isEmpty)
    · rw [if_pos h]
      apply length_pos_left
      decide
    · rw [if_neg h]
      repeat' apply length_pos_left
      decide
  · decide
  · decide

/-! ### Claim C7: schedule sorting and importance marker -/

theorem str_prefix_append_left (a b : String) (p : List Char)
    (h : p <+: a.data) : p <+: (a ++ b).data := by
  rw [string_data_append]
  exact h.trans (List.prefix_append _ _)

/-- Unfolding of `scheduleLine`. -/
theorem scheduleLine_eq (e : CalEvent) :
    scheduleLine e =
      (if e.important.getD false then "⭐ " else "") ++
      e.time.getD "시간 미정" ++ " - " ++ e.title.getD "제목 없음" ++
      (if e.location.getD "" ≠ "" then " (" ++ e.location.getD "" ++ ")" else "") ++
      "\n" := rfl

/-- C7: on a non-empty list the schedule formatter is the header followed by
the rendered lines of `sortEvents events`, where `sortEvents` is (a) sorted
ascending under Python's code-point string order on the raw `start` value
(missing `start` reading as `""`) and (b) a permutation of the input; and a
rendered line begins with the `⭐ ` marker exactly when the event's
`important` flag is set, provided the event's own text fields do not use the
`⭐` character. -/
theorem C7_schedule_sort_and_marker (events : List CalEvent)
    (hne : events.isEmpty = false) :
    format_schedule_message events =
      "📅 오늘 일정 브리핑\n\n" ++ scheduleLines (sortEvents events) ∧
    List.Pairwise
      (fun a b : CalEvent => pyStrLe (a.start.getD "") (b.start.getD "") = true)
      (sortEvents events) ∧
    (sortEvents events).Perm events ∧
    (∀ e : CalEvent,
      '⭐' ∉ (e.time.getD "시간 미정").data →
      '⭐' ∉ (e.title.getD "제목 없음").data →
      '⭐' ∉ (e.location.getD "").data →
      (e.important.getD false = true ↔ "⭐ ".data <+: (scheduleLine e).data)) := by
  refine ⟨?_, ?_, ?_, ?_⟩
  · unfold format_schedule_message
    rw [hne]
    rfl
  · unfold sortEvents
    exact @List.sorted_mergeSort CalEvent
      (fun a b : CalEvent => pyStrLe (a.start.getD "") (b.start.getD ""))
      (fun a b c hab hbc => pyStrLe_trans _ _ _ hab hbc)
      (fun a b => pyStrLe_total _ _) events
  · exact List.mergeSort_perm events _
  · intro e htime htitle hloc
    constructor
    · intro himp
      rw [scheduleLine_eq e, himp]
      rw [if_pos rfl]
      repeat' apply str_prefix_append_left
      exact List.prefix_refl _
    · intro hp
      by_contra himp
      have hfalse : e.important.getD false = false := by
        cases h : e.important.getD false
        · rfl
        · exact absurd h himp
      have hstar : '⭐' ∈ (scheduleLine e).data := hp.subset (by decide)
      revert hstar
      rw [scheduleLine_eq e, hfalse, if_neg (by simp)]
      have hloc2 : '⭐' ∉
          (if e.location.getD "" ≠ "" then " (" ++ e.location.getD "" ++ ")" else "").data := by
        by_cases hl : e.location.getD "" ≠ ""
        · rw [if_pos hl]
          repeat' apply char_not_mem_append
          all_goals first | decide | exact hloc
        · rw [if_neg hl]
          decide
      intro hstar
      revert hstar
      apply char_not_mem_append
      · apply char_not_mem_append
        · apply char_not_mem_append
          · apply char_not_mem_append
            · apply char_not_mem_append
              · decide
              · exact htime
            · decide
          · exact htitle
        · exact hloc2
      · decide

/-- Sample events for the C7 witness (unsorted starts, one important). -/
def eventsSample : List CalEvent :=
  [⟨some "2025-10-12T15:00:00+09:00", some "오후 3시", some "회의", some "판교", some false⟩,
   ⟨some "2025-10-12T09:00:00+09:00", some "오전 9시", some "스탠드업", none, some true⟩,
   ⟨none, none, none, none, none⟩]

/-- C7 witness: the schedule theorem at a concrete three-event list, with
the marker equivalence evaluated on its important event. -/
theorem C7_witness :
    List.Pairwise
      (fun a b : CalEvent => pyStrLe (a.start.getD "") (b.start.getD "") = true)
      (sortEvents eventsSample) ∧
    (sortEvents eventsSample).Perm eventsSample ∧
    "⭐ ".data <+:
      (scheduleLine ⟨some "2025-10-12T09:00:00+09:00", some "오전 9시",
        some "스탠드업", none, some true⟩).data := by
  have h := C7_schedule_sort_and_marker eventsSample (by decide)
  refine ⟨h.2.1, h.2.2.1, ?_⟩
  exact (h.2.2.2 _ (by decide) (by decide) (by decide)).mp (by decide)

/-! ### Claim C6: evening briefing sections -/

theorem recSection_take2 (recs : List RecItem) :
    recSection (recs.take 2) = recSection recs := by
  cases recs with
  | nil => rfl
  | cons r rest =>
    unfold recSection
    have h1 : ((r :: rest).take 2).isEmpty = false := by
      cases rest <;> rfl
    have h2 : (r :: rest).isEmpty = false := rfl
    rw [h1, h2, List.take_take]
    norm_num

/-- C6 (amended): the evening schedule service caps the tomorrow preview at
3 important events of tomorrow and keeps only today events that are all-day
or parse at/after 18:00; the formatter emits the explicit `nothing
scheduled this evening` sentence when the evening list is empty, emits the
tomorrow header only when the preview is non-empty — an empty preview
contributes nothing to the message — and renders at most the first two
recommendations. -/
theorem C6_evening_sections (parse : String → Option Nat) (evening_start : Nat)
    (today tomorrow : List CalEvent) (b : EveningBriefing) :
    ((get_evening_schedule parse evening_start today tomorrow).tomorrow_preview.length ≤ 3) ∧
    (∀ e ∈ (get_evening_schedule parse evening_start today tomorrow).tomorrow_preview,
      e.important.getD false = true ∧ e ∈ tomorrow) ∧
    (∀ e ∈ (get_evening_schedule parse evening_start today tomorrow).evening_events,
      e ∈ today ∧ e.start.getD "" ≠ "" ∧
      ((e.start.getD "").data.contains 'T' = true →
        ∃ t, parse (replaceZUtc (e.start.getD "")) = some t ∧ evening_start ≤ t)) ∧
    (b.schedule.evening_events = [] →
      strContains (format_evening_message b) "오늘 저녁 예정된 일정이 없어요") ∧
    (b.schedule.evening_events ≠ [] →
      strContains (format_evening_message b) "오늘 저녁 일정") ∧
    (b.schedule.tomorrow_preview = [] →
      tomorrowSection b.schedule.tomorrow_preview = "") ∧
    (b.schedule.tomorrow_preview ≠ [] →
      strContains (format_evening_message b) "내일 주요 일정 미리보기") ∧
    format_evening_message b =
      format_evening_message ⟨b.schedule, b.recommendations.take 2⟩ := by
  have hkey : ∀ pat : String,
      strContains (eveningSection b.schedule.evening_events) pat ∨
      strContains (tomorrowSection b.schedule.tomorrow_preview) pat →
      strContains (format_evening_message b) pat := by
    intro pat hp
    unfold format_evening_message
    rcases hp with hp | hp
    · exact strContains_append_left _ _ _ (strContains_append_left _ _ _
        (strContains_append_left _ _ _ (strContains_append_right _ _ _ hp)))
    · exact strContains_append_left _ _ _ (strContains_append_left _ _ _
        (strContains_append_right _ _ _ hp))
  refine ⟨?_, ?_, ?_, ?_, ?_, ?_, ?_, ?_⟩
  · show ((tomorrow.filter (fun e => e.important.getD false)).take 3).length ≤ 3
    rw [List.length_take]
    exact min_le_left _ _
  · intro e he
    have he' : e ∈ tomorrow.filter (fun e => e.important.getD false) :=
      List.take_subset _ _ he
    have := List.mem_filter.mp he'
    exact ⟨by simpa using this.2, this.1⟩
  · intro e he
    have hmem := List.mem_filter.mp he
    have hkeep : isEveningEvent parse evening_start e = true := by simpa using hmem.2
    unfold isEveningEvent at hkeep
    by_cases hs : e.start.getD "" ≠ ""
    · rw [if_pos hs] at hkeep
      refine ⟨hmem.1, hs, ?_⟩
      intro hT
      rw [if_pos hT] at hkeep
      cases hp : parse (replaceZUtc (e.start.getD "")) with
      | none => rw [hp] at hkeep; exact absurd hkeep (by simp)
      | some t =>
        rw [hp] at hkeep
        exact ⟨t, rfl, by simpa using hkeep⟩
    · rw [if_neg hs] at hkeep
      exact absurd hkeep (by simp)
  · intro hev
    apply hkey _ (Or.inl ?_)
    rw [hev]
    show strContains "오늘 저녁 예정된 일정이 없어요! 😊\n\n" "오늘 저녁 예정된 일정이 없어요"
    decide
  · intro hev
    apply hkey _ (Or.inl ?_)
    unfold eveningSection
    rw [if_neg (by simpa [List.isEmpty_iff] using hev)]
    exact strContains_append_left _ _ _ (strContains_append_left _ _ _ (by decide))
  · intro ht
    rw [ht]
    rfl
  · intro ht
    apply hkey _ (Or.inr ?_)
    unfold tomorrowSection
    rw [if_neg (by simpa [List.isEmpty_iff] using ht)]
    exact strContains_append_left _ _ _ (strContains_append_left _ _ _ (by decide))
  · show _ = "🌆 퇴근 시간 알림\n\n" ++ eveningSection b.schedule.evening_events ++
      tomorrowSection b.schedule.tomorrow_preview ++
      recSection (b.recommendations.take 2) ++ "오늘 하루도 수고하셨어요! 🌙"
    rw [recSection_take2]
    rfl

/-- Evening briefing with one evening event and an empty tomorrow preview. -/
def eveningCex : EveningBriefing :=
  ⟨⟨[⟨some "2025-10-12T19:00:00", some "오후 7시", some "저녁 약속", none, some false⟩],
    [], true, false⟩, []⟩

/-- C6 counterexample: with an empty tomorrow preview the message mentions
tomorrow (`내일`) nowhere — the section is omitted outright instead of
rendering a `nothing scheduled` sentence, contrary to the claim. -/
theorem C6_counterexample :
    eveningCex.schedule.tomorrow_preview = [] ∧
    ¬ strContains (format_evening_message eveningCex) "내일" := by
  constructor
  · rfl
  · decide

/-- Evening briefing with no evening events and one important tomorrow
event. -/
def eveningWitB : EveningBriefing :=
  ⟨⟨[], [⟨none, some "오전 10시", some "발표", none, some true⟩], false, true⟩, []⟩

/-- C6 witness: the amended theorem applied at concrete inputs (empty
evening list produces the explicit sentence; non-empty preview produces the
tomorrow header; the service preview is capped at 3). -/
theorem C6_witness :
    strContains (format_evening_message eveningWitB) "오늘 저녁 예정된 일정이 없어요" ∧
    strContains (format_evening_message eveningWitB) "내일 주요 일정 미리보기" ∧
    (get_evening_schedule (fun _ => some 20) 18 [] []).tomorrow_preview.length ≤ 3 := by
  have h := C6_evening_sections (fun _ => some 20) 18 [] [] eveningWitB
  exact ⟨h.2.2.2.1 rfl, h.2.2.2.2.2.2.1 (by decide), h.1⟩

/-! ### Claims C3 and C10: dedup store -/

/-- Characterization of a load: exactly the URLs persisted with a timestamp
inside the window. -/
theorem mem_get_seen (state : List (String × Nat)) (now : Nat) (u : String) :
    u ∈ get_seen_news_urls state now ↔
      ∃ ts, (u, ts) ∈ state ∧ newsCutoff now ≤ ts := by
  unfold get_seen_news_urls
  constructor
  · intro h
    obtain ⟨p, hp, hfst⟩ := List.mem_map.mp h
    have hf := List.mem_filter.mp hp
    refine ⟨p.2, ?_, by simpa using hf.2⟩
    cases p
    cases hfst
    exact hf.1
  · rintro ⟨ts, hmem, hts⟩
    exact List.mem_map.mpr ⟨(u, ts), List.mem_filter.mpr ⟨hmem, by simpa using hts⟩, rfl⟩

/-- C3: dedup-store round trip.  (a) After `save(k, load(k) ∪ X)` at time
`tSave`, a later load at `tLoad` within the window (`newsCutoff tLoad ≤
tSave`) returns a superset of `X`; (b) a load never returns a URL without a
within-window persisted timestamp; (c) a save merges read-before-write: any
persisted URL still inside the window at save time survives the save. -/
theorem C3_dedup_roundtrip :
    (∀ (state : List (String × Nat)) (X : List String) (tSave tLoad : Nat),
      newsCutoff tLoad ≤ tSave →
      ∀ u ∈ X,
        u ∈ get_seen_news_urls
          (save_seen_news_urls state ((get_seen_news_urls state tSave).union X) tSave)
          tLoad) ∧
    (∀ (state : List (String × Nat)) (now : Nat) (u : String),
      u ∈ get_seen_news_urls state now →
      ∃ ts, (u, ts) ∈ state ∧ newsCutoff now ≤ ts) ∧
    (∀ (state : List (String × Nat)) (X : List String) (now : Nat) (u : String) (ts : Nat),
      (u, ts) ∈ state → newsCutoff now ≤ ts →
      u ∈ (save_seen_news_urls state X now).map Prod.fst) := by
  refine ⟨?_, ?_, ?_⟩
  · intro state X tSave tLoad hwin u hu
    rw [mem_get_seen]
    refine ⟨tSave, ?_, hwin⟩
    unfold save_seen_news_urls
    exact List.mem_map.mpr
      ⟨u, List.mem_union_iff.mpr (Or.inr (List.mem_union_iff.mpr (Or.inr hu))), rfl⟩
  · intro state now u h
    exact (mem_get_seen state now u).mp h
  · intro state X now u ts hmem hts
    unfold save_seen_news_urls
    refine List.mem_map.mpr ⟨(u, now), ?_, rfl⟩
    refine List.mem_map.mpr ⟨u, ?_, rfl⟩
    exact List.mem_union_iff.mpr
      (Or.inl ((mem_get_seen state now u).mpr ⟨ts, hmem, hts⟩))

/-- C3 witness: the round trip at a concrete store, with the window
hypothesis discharged at `tSave = 100`, `tLoad = 105`. -/
theorem C3_witness :
    "new-url" ∈ get_seen_news_urls
      (save_seen_news_urls [("old-url", 99)]
        ((get_seen_news_urls [("old-url", 99)] 100).union ["new-url"]) 100) 105 := by
  have h := C3_dedup_roundtrip
  exact h.1 [("old-url", 99)] ["new-url"] 100 105 (by decide) "new-url" (by decide)

/-- C10 counterexample: a save at time 101 rewrites the still-in-window pair
`("u", 100)` to `("u", 101)` — the persisted first-seen timestamp is not
preserved. -/
theorem C10_counterexample :
    newsCutoff 101 ≤ 100 ∧
    ("u", 100) ∈ ([("u", 100)] : List (String × Nat)) ∧
    ("u", 100) ∉ save_seen_news_urls [("u", 100)] [] 101 ∧
    save_seen_news_urls [("u", 100)] [] 101 = [("u", 101)] := by decide

/-- C10 (amended): a save stamps every stored pair with the save time (so
previously persisted timestamps are refreshed, not preserved), while the URL
set after the save is exactly the new URLs plus the previously persisted
URLs still inside the window. -/
theorem C10_save_rewrites_timestamps (state : List (String × Nat))
    (urls : List String) (now : Nat) :
    (∀ p ∈ save_seen_news_urls state urls now, p.2 = now) ∧
    (∀ u ts, (u, ts) ∈ state → newsCutoff now ≤ ts →
      u ∈ (save_seen_news_urls state urls now).map Prod.fst) ∧
    (∀ p ∈ save_seen_news_urls state urls now,
      p.1 ∈ urls ∨ ∃ ts, (p.1, ts) ∈ state ∧ newsCutoff now ≤ ts) := by
  refine ⟨?_, ?_, ?_⟩
  · intro p hp
    obtain ⟨u, _, hu⟩ := List.mem_map.mp hp
    cases hu
    rfl
  · intro u ts hmem hts
    unfold save_seen_news_urls
    refine List.mem_map.mpr ⟨(u, now), ?_, rfl⟩
    refine List.mem_map.mpr ⟨u, ?_, rfl⟩
    exact List.mem_union_iff.mpr
      (Or.inl ((mem_get_seen state now u).mpr ⟨ts, hmem, hts⟩))
  · intro p hp
    obtain ⟨u, hu, hp'⟩ := List.mem_map.mp hp
    cases hp'
    rcases List.mem_union_iff.mp hu with h | h
    · exact Or.inr ((mem_get_seen state now u).mp h)
    · exact Or.inl h

/-- C10 amended-claim witness: at a concrete store every saved pair carries
the save time, and the in-window URL survives. -/
theorem C10_witness :
    (∀ p ∈ save_seen_news_urls [("u", 100)] ["v"] 101, p.2 = 101) ∧
    "u" ∈ (save_seen_news_urls [("u", 100)] ["v"] 101).map Prod.fst := by
  have h := C10_save_rewrites_timestamps [("u", 100)] ["v"] 101
  exact ⟨h.1, h.2.1 "u" 100 (by decide) (by decide)⟩

/-! ### Claim C1: command delivery and exit codes -/

theorem ite_exit_code (b : Bool) : ((if b then (0 : Nat) else 1) = 0 ↔ b = true) := by
  cases b <;> simp

/-- Environment in which the weather adapter returns no data (both providers
failed); delivery itself would succeed. -/
def envNoWeather : CmdEnv :=
  { weather := none, llm_weather := "", news_items := [],
    schedule := ⟨[], 0, 0⟩, schedule_llm := "",
    evening := ⟨⟨[], [], false, false⟩, []⟩, evening_llm := "",
    night := ⟨[], false, none⟩, night_llm := "",
    commute := ⟨none, none, none, none⟩, commute_llm := "", send_ok := true }

/-- C1 counterexample: when the weather adapter returns nothing,
`weather_command` hands zero messages to the delivery sink (no apologetic
fallback) and exits 1 even though delivery never failed. -/
theorem C1_counterexample :
    weather_command envNoWeather = ⟨[], 1⟩ ∧ envNoWeather.send_ok = true := by
  constructor
  · rfl
  · rfl

/-- C1 (amended): the news, schedule, evening and night commands always hand
exactly one message to the delivery sink and exit 0 exactly when that
delivery succeeds; the weather and commute commands do the same when their
adapters return data, but when the weather adapter returns nothing (resp.
both commute locations are missing) they deliver nothing and exit 1. -/
theorem C1_delivery_and_exit (env : CmdEnv) :
    ((news_command env).sent.length = 1 ∧
      ((news_command env).code = 0 ↔ env.send_ok = true)) ∧
    ((schedule_command env).sent.length = 1 ∧
      ((schedule_command env).code = 0 ↔ env.send_ok = true)) ∧
    ((evening_command env).sent.length = 1 ∧
      ((evening_command env).code = 0 ↔ env.send_ok = true)) ∧
    ((night_command env).sent.length = 1 ∧
      ((night_command env).code = 0 ↔ env.send_ok = true)) ∧
    (env.weather = none → weather_command env = ⟨[], 1⟩) ∧
    (∀ w, env.weather = some w →
      (weather_command env).sent.length = 1 ∧
      ((weather_command env).code = 0 ↔ env.send_ok = true)) ∧
    (env.commute.home = none → env.commute.office = none →
      commute_command env = ⟨[], 1⟩) ∧
    (env.commute.home.isSome = true ∨ env.commute.office.isSome = true →
      (commute_command env).sent.length = 1 ∧
      ((commute_command env).code = 0 ↔ env.send_ok = true)) := by
  refine ⟨?_, ?_, ?_, ?_, ?_, ?_, ?_, ?_⟩
  · unfold news_command
    by_cases h : env.news_items.isEmpty
    · rw [if_pos h]
      exact ⟨rfl, ite_exit_code env.send_ok⟩
    · rw [if_neg h]
      exact ⟨rfl, ite_exit_code env.send_ok⟩
  · unfold schedule_command
    by_cases h : env.schedule.events.isEmpty
    · rw [if_pos h]
      exact ⟨rfl, ite_exit_code env.send_ok⟩
    · rw [if_neg h]
      exact ⟨rfl, ite_exit_code env.send_ok⟩
  · exact ⟨rfl, ite_exit_code env.send_ok⟩
  · exact ⟨rfl, ite_exit_code env.send_ok⟩
  · intro hw
    unfold weather_command
    rw [hw]
  · intro w hw
    unfold weather_command
    rw [hw]
    exact ⟨rfl, ite_exit_code env.send_ok⟩
  · intro hh ho
    unfold commute_command
    rw [hh, ho]
    rfl
  · intro hsome
    unfold commute_command
    have hcond : (env.commute.home.isNone && env.commute.office.isNone) = false := by
      rcases hsome with h | h <;> cases hh : env.commute.home <;>
        cases hho : env.commute.office <;>
        simp_all [Option.isSome, Option.isNone]
    rw [hcond]
    exact ⟨rfl, ite_exit_code env.send_ok⟩

/-- Environment for the C1 witness: every adapter returns data and delivery
succeeds. -/
def envAllOk : CmdEnv :=
  { weather := some weatherAt30, llm_weather := "", news_items := [],
    schedule := ⟨[], 0, 0⟩, schedule_llm := "",
    evening := ⟨⟨[], [], false, false⟩, []⟩, evening_llm := "",
    night := ⟨[], false, none⟩, night_llm := "",
    commute := commuteSample, commute_llm := "", send_ok := true }

/-- C1 witness: the amended theorem at a concrete environment, with the
adapter-present hypotheses discharged. -/
theorem C1_witness :
    (news_command envAllOk).sent.length = 1 ∧
    (weather_command envAllOk).sent.length = 1 ∧
    ((weather_command envAllOk).code = 0 ↔ envAllOk.send_ok = true) ∧
    (commute_command envAllOk).sent.length = 1 := by
  have h := C1_delivery_and_exit envAllOk
  have hw := h.2.2.2.2.2.1 weatherAt30 rfl
  exact ⟨h.1.1, hw.1, hw.2, (h.2.2.2.2.2.2.2 (Or.inl rfl)).1⟩

/-! ### Claim C2: news filtering -/

/-- Loop invariant of the main filtering loop: accepted items have distinct
normalized titles, come from the input (or the incoming accumulator), dodge
the seen-URL set, and carry a URL and a 10-character normalized title. -/
theorem filterUnseen_inv (max_items : Nat) (seen_urls : List String)
    (l : List NewsItem) :
    ∀ (titles : List String) (acc : List NewsItem),
    (∀ a ∈ acc, pyNormTitle a.title ∈ titles) →
    List.Pairwise (fun a b => pyNormTitle a.title ≠ pyNormTitle b.title) acc →
    (∀ a ∈ acc, a.url ∉ seen_urls ∧ a.url ≠ "" ∧ 10 ≤ (pyNormTitle a.title).length) →
    List.Pairwise (fun a b => pyNormTitle a.title ≠ pyNormTitle b.title)
      (filterUnseen max_items seen_urls l titles acc).1 ∧
    ∀ a ∈ (filterUnseen max_items seen_urls l titles acc).1,
      (a ∈ acc ∨ a ∈ l) ∧ a.url ∉ seen_urls ∧ a.url ≠ "" ∧
      10 ≤ (pyNormTitle a.title).length := by
  induction l with
  | nil =>
    intro titles acc h1 h2 h3
    rw [filterUnseen]
    exact ⟨h2, fun a ha => ⟨Or.inl ha, h3 a ha⟩⟩
  | cons item rest ih =>
    intro titles acc h1 h2 h3
    rw [filterUnseen]
    by_cases hseen : item.url ∈ seen_urls
    · rw [if_pos hseen]
      obtain ⟨p1, p2⟩ := ih titles acc h1 h2 h3
      exact ⟨p1, fun a ha =>
        ⟨(p2 a ha).1.imp id (List.mem_cons_of_mem item), (p2 a ha).2⟩⟩
    · rw [if_neg hseen]
      by_cases hvalid : item.url = "" ∨ (pyNormTitle item.title).length < 10
      · rw [if_pos hvalid]
        obtain ⟨p1, p2⟩ := ih titles acc h1 h2 h3
        exact ⟨p1, fun a ha =>
          ⟨(p2 a ha).1.imp id (List.mem_cons_of_mem item), (p2 a ha).2⟩⟩
      · rw [if_neg hvalid]
        push_neg at hvalid
        by_cases htitle : pyNormTitle item.title ∈ titles
        · rw [if_pos htitle]
          obtain ⟨p1, p2⟩ := ih titles acc h1 h2 h3
          exact ⟨p1, fun a ha =>
            ⟨(p2 a ha).1.imp id (List.mem_cons_of_mem item), (p2 a ha).2⟩⟩
        · rw [if_neg htitle]
          have h1' : ∀ a ∈ acc ++ [item],
              pyNormTitle a.title ∈ titles ++ [pyNormTitle item.title] := by
            intro a ha
            rcases List.mem_append.mp ha with ha | ha
            · exact List.mem_append.mpr (Or.inl (h1 a ha))
            · rcases List.mem_singleton.mp ha with rfl
              exact List.mem_append.mpr (Or.inr (List.mem_singleton.mpr rfl))
          have h2' : List.Pairwise
              (fun a b => pyNormTitle a.title ≠ pyNormTitle b.title) (acc ++ [item]) := by
            rw [List.pairwise_append]
            refine ⟨h2, List.pairwise_singleton _ _, ?_⟩
            intro a ha b hb
            rcases List.mem_singleton.mp hb with rfl
            intro heq
            exact htitle (heq ▸ h1 a ha)
          have h3' : ∀ a ∈ acc ++ [item],
              a.url ∉ seen_urls ∧ a.url ≠ "" ∧ 10 ≤ (pyNormTitle a.title).length := by
            intro a ha
            rcases List.mem_append.mp ha with ha | ha
            · exact h3 a ha
            · rcases List.mem_singleton.mp ha with rfl
              exact ⟨hseen, hvalid.1, by omega⟩
          by_cases hlen : max_items ≤ (acc ++ [item]).length
          · rw [if_pos hlen]
            refine ⟨h2', fun a ha => ?_⟩
            rcases List.mem_append.mp ha with ha | ha
            · exact ⟨Or.inl ha, h3 a ha⟩
            · rcases List.mem_singleton.mp ha with rfl
              exact ⟨Or.inr (List.mem_cons_self _ _), hseen, hvalid.1, by omega⟩
          · rw [if_neg hlen]
            obtain ⟨p1, p2⟩ := ih (titles ++ [pyNormTitle item.title]) (acc ++ [item]) h1' h2' h3'
            refine ⟨p1, fun a ha => ?_⟩
            refine ⟨?_, (p2 a ha).2⟩
            rcases (p2 a ha).1 with hm | hm
            · rcases List.mem_append.mp hm with hm | hm
              · exact Or.inl hm
              · rcases List.mem_singleton.mp hm with rfl
                exact Or.inr (List.mem_cons_self _ _)
            · exact Or.inr (List.mem_cons_of_mem item hm)

/-- Loop invariant of the last-resort loop: same title discipline and
validity checks, but no seen-URL test. -/
theorem fallbackFill_inv (max_items : Nat) (l : List NewsItem) :
    ∀ (titles : List String) (acc : List NewsItem),
    (∀ a ∈ acc, pyNormTitle a.title ∈ titles) →
    List.Pairwise (fun a b => pyNormTitle a.title ≠ pyNormTitle b.title) acc →
    (∀ a ∈ acc, a.url ≠ "" ∧ 10 ≤ (pyNormTitle a.title).length) →
    List.Pairwise (fun a b => pyNormTitle a.title ≠ pyNormTitle b.title)
      (fallbackFill max_items l titles acc) ∧
    ∀ a ∈ fallbackFill max_items l titles acc,
      (a ∈ acc ∨ a ∈ l) ∧ a.url ≠ "" ∧ 10 ≤ (pyNormTitle a.title).length := by
  induction l with
  | nil =>
    intro titles acc h1 h2 h3
    rw [fallbackFill]
    exact ⟨h2, fun a ha => ⟨Or.inl ha, h3 a ha⟩⟩
  | cons item rest ih =>
    intro titles acc h1 h2 h3
    rw [fallbackFill]
    by_cases hvalid : item.url ≠ "" ∧ 10 ≤ (pyNormTitle item.title).length
    · rw [if_pos hvalid]
      by_cases htitle : pyNormTitle item.title ∉ titles
      · rw [if_pos htitle]
        have h1' : ∀ a ∈ acc ++ [item],
            pyNormTitle a.title ∈ titles ++ [pyNormTitle item.title] := by
          intro a ha
          rcases List.mem_append.mp ha with ha | ha
          · exact List.mem_append.mpr (Or.inl (h1 a ha))
          · rcases List.mem_singleton.mp ha with rfl
            exact List.mem_append.mpr (Or.inr (List.mem_singleton.mpr rfl))
        have h2' : List.Pairwise
            (fun a b => pyNormTitle a.title ≠ pyNormTitle b.title) (acc ++ [item]) := by
          rw [List.pairwise_append]
          refine ⟨h2, List.pairwise_singleton _ _, ?_⟩
          intro a ha b hb
          rcases List.mem_singleton.mp hb with rfl
          intro heq
          exact htitle (heq ▸ h1 a ha)
        have h3' : ∀ a ∈ acc ++ [item],
            a.url ≠ "" ∧ 10 ≤ (pyNormTitle a.title).length := by
          intro a ha
          rcases List.mem_append.mp ha with ha | ha
          · exact h3 a ha
          · rcases List.mem_singleton.mp ha with rfl
            exact hvalid
        by_cases hlen : max_items ≤ (acc ++ [item]).length
        · rw [if_pos hlen]
          refine ⟨h2', fun a ha => ?_⟩
          rcases List.mem_append.mp ha with ha | ha
          · exact ⟨Or.inl ha, h3 a ha⟩
          · rcases List.mem_singleton.mp ha with rfl
            exact ⟨Or.inr (List.mem_cons_self _ _), hvalid⟩
        · rw [if_neg hlen]
          obtain ⟨p1, p2⟩ := ih (titles ++ [pyNormTitle item.title]) (acc ++ [item]) h1' h2' h3'
          refine ⟨p1, fun a ha => ?_⟩
          refine ⟨?_, (p2 a ha).2⟩
          rcases (p2 a ha).1 with hm | hm
          · rcases List.mem_append.mp hm with hm | hm
            · exact Or.inl hm
            · rcases List.mem_singleton.mp hm with rfl
              exact Or.inr (List.mem_cons_self _ _)
          · exact Or.inr (List.mem_cons_of_mem item hm)
      · rw [if_neg htitle]
        obtain ⟨p1, p2⟩ := ih titles acc h1 h2 h3
        exact ⟨p1, fun a ha =>
          ⟨(p2 a ha).1.imp id (List.mem_cons_of_mem item), (p2 a ha).2⟩⟩
    · rw [if_neg hvalid]
      obtain ⟨p1, p2⟩ := ih titles acc h1 h2 h3
      exact ⟨p1, fun a ha =>
        ⟨(p2 a ha).1.imp id (List.mem_cons_of_mem item), (p2 a ha).2⟩⟩

theorem decorateItem_preserves (llm : String → String → String)
    (unescape : String → String) (i : NewsItem) :
    (decorateItem llm unescape i).url = i.url ∧
    (decorateItem llm unescape i).title = i.title := by
  unfold decorateItem
  by_cases h : pyTruthy i.headline
  · rw [if_pos h]; exact ⟨rfl, rfl⟩
  · rw [if_neg h]; exact ⟨rfl, rfl⟩

/-- Unfolding of `get_news_briefing` on a non-empty raw fetch. -/
theorem get_news_briefing_eq (max_items : Nat) (seen_urls : List String)
    (all_news : List NewsItem) (llm : String → String → String)
    (unescape : String → String) (hne : all_news.isEmpty = false) :
    get_news_briefing max_items seen_urls all_news llm unescape =
      ((if (filterUnseen max_items seen_urls all_news [] []).1.isEmpty then
          fallbackFill max_items (all_news.take max_items)
            (filterUnseen max_items seen_urls all_news [] []).2 []
        else (filterUnseen max_items seen_urls all_news [] []).1).map
        (decorateItem llm unescape)).take max_items := by
  unfold get_news_briefing
  rw [hne]
  rfl

/-- C2 (amended): on a non-empty raw fetch the briefing returns at most
`max_items` items with pairwise-distinct normalized titles, each with a URL
and a 10-character normalized title; when the strict filter finds anything,
no returned URL is in the seen set, and when it finds nothing, every
returned item is drawn from the first `max_items` raw items only (so the
result can still be empty if none of those qualify). -/
theorem C2_news_briefing (max_items : Nat) (seen_urls : List String)
    (all_news : List NewsItem) (llm : String → String → String)
    (unescape : String → String) (hraw : all_news ≠ []) :
    (get_news_briefing max_items seen_urls all_news llm unescape).length ≤ max_items ∧
    List.Pairwise (fun a b => pyNormTitle a.title ≠ pyNormTitle b.title)
      (get_news_briefing max_items seen_urls all_news llm unescape) ∧
    (∀ i ∈ get_news_briefing max_items seen_urls all_news llm unescape,
      i.url ≠ "" ∧ 10 ≤ (pyNormTitle i.title).length) ∧
    ((filterUnseen max_items seen_urls all_news [] []).1 ≠ [] →
      ∀ i ∈ get_news_briefing max_items seen_urls all_news llm unescape,
        i.url ∉ seen_urls) ∧
    ((filterUnseen max_items seen_urls all_news [] []).1 = [] →
      ∀ i ∈ get_news_briefing max_items seen_urls all_news llm unescape,
        ∃ j ∈ all_news.take max_items, i.url = j.url ∧ i.title = j.title) := by
  have hne : all_news.isEmpty = false := by
    cases all_news with
    | nil => exact absurd rfl hraw
    | cons a l => rfl
  have hL := get_news_briefing_eq max_items seen_urls all_news llm unescape hne
  by_cases hemp : (filterUnseen max_items seen_urls all_news [] []).1.isEmpty
  · rw [if_pos hemp] at hL
    obtain ⟨p1, p2⟩ := fallbackFill_inv max_items (all_news.take max_items)
      (filterUnseen max_items seen_urls all_news [] []).2 []
      (by intro a ha; cases ha) List.Pairwise.nil (by intro a ha; cases ha)
    refine ⟨?_, ?_, ?_, ?_, ?_⟩
    · rw [hL, List.length_take]
      exact min_le_left _ _
    · rw [hL]
      refine List.Pairwise.sublist (List.take_sublist _ _) ?_
      refine List.pairwise_map.mpr (p1.imp ?_)
      intro a b hab
      rw [(decorateItem_preserves llm unescape a).2,
        (decorateItem_preserves llm unescape b).2]
      exact hab
    · intro i hi
      rw [hL] at hi
      obtain ⟨a, ha, rfl⟩ := List.mem_map.mp (List.take_subset _ _ hi)
      rw [(decorateItem_preserves llm unescape a).1,
        (decorateItem_preserves llm unescape a).2]
      exact (p2 a ha).2
    · intro hne2
      exact absurd (List.isEmpty_iff.mp hemp) hne2
    · intro _ i hi
      rw [hL] at hi
      obtain ⟨a, ha, rfl⟩ := List.mem_map.mp (List.take_subset _ _ hi)
      have ha2 : a ∈ all_news.take max_items := by
        rcases (p2 a ha).1 with h | h
        · cases h
        · exact h
      exact ⟨a, ha2, (decorateItem_preserves llm unescape a).1,
        (decorateItem_preserves llm unescape a).2⟩
  · rw [if_neg hemp] at hL
    obtain ⟨p1, p2⟩ := filterUnseen_inv max_items seen_urls all_news [] []
      (by intro a ha; cases ha) List.Pairwise.nil (by intro a ha; cases ha)
    refine ⟨?_, ?_, ?_, ?_, ?_⟩
    · rw [hL, List.length_take]
      exact min_le_left _ _
    · rw [hL]
      refine List.Pairwise.sublist (List.take_sublist _ _) ?_
      refine List.pairwise_map.mpr (p1.imp ?_)
      intro a b hab
      rw [(decorateItem_preserves llm unescape a).2,
        (decorateItem_preserves llm unescape b).2]
      exact hab
    · intro i hi
      rw [hL] at hi
      obtain ⟨a, ha, rfl⟩ := List.mem_map.mp (List.take_subset _ _ hi)
      rw [(decorateItem_preserves llm unescape a).1,
        (decorateItem_preserves llm unescape a).2]
      exact ⟨(p2 a ha).2.2.1, (p2 a ha).2.2.2⟩
    · intro _ i hi
      rw [hL] at hi
      obtain ⟨a, ha, rfl⟩ := List.mem_map.mp (List.take_subset _ _ hi)
      rw [(decorateItem_preserves llm unescape a).1]
      exact (p2 a ha).2.1
    · intro h
      exact absurd (by rw [h]; rfl) hemp

/-- Raw fetch for the C2 counterexample: the first item has a too-short
title, the second is valid but already seen. -/
def newsCexItems : List NewsItem :=
  [⟨"short", "", "u1", "", "", "News", none, none⟩,
   ⟨"a sufficiently long title", "", "u2", "", "", "News", none, none⟩]

/-- C2 counterexample: the raw fetch is non-empty and contains a valid
previously-seen item, yet the briefing is empty — the last-resort loop only
scans the first `max_items` raw items, so no seen item is returned and the
result is an empty list, contrary to the claim. -/
theorem C2_counterexample :
    newsCexItems ≠ [] ∧
    (⟨"a sufficiently long title", "", "u2", "", "", "News", none, none⟩ : NewsItem)
      ∈ newsCexItems ∧
    "u2" ∈ ["u2"] ∧
    get_news_briefing 1 ["u2"] newsCexItems (fun _ _ => "") id = [] := by
  refine ⟨by decide, by decide, by decide, ?_⟩
  rfl

/-- Raw fetch for the C2 witness: two unseen items sharing a normalized
title, one seen item. -/
def newsWitItems : List NewsItem :=
  [⟨"Fresh AI Model Released", "", "w1", "", "", "AI", none, none⟩,
   ⟨"fresh ai model released", "", "w2", "", "", "AI", none, none⟩,
   ⟨"another long enough title", "", "w3", "", "", "News", none, none⟩]

/-- C2 witness: the amended theorem at a concrete fetch where the strict
filter succeeds. -/
theorem C2_witness :
    (get_news_briefing 5 ["w3"] newsWitItems (fun _ _ => "") id).length ≤ 5 ∧
    List.Pairwise (fun a b => pyNormTitle a.title ≠ pyNormTitle b.title)
      (get_news_briefing 5 ["w3"] newsWitItems (fun _ _ => "") id) ∧
    ∀ i ∈ get_news_briefing 5 ["w3"] newsWitItems (fun _ _ => "") id,
      i.url ∉ ["w3"] := by
  have h := C2_news_briefing 5 ["w3"] newsWitItems (fun _ _ => "") id (by decide)
  refine ⟨h.1, h.2.1, h.2.2.2.1 ?_⟩
  intro hempty
  have hlen : (filterUnseen 5 ["w3"] newsWitItems [] []).1.length = 1 := rfl
  rw [hempty] at hlen
  exact absurd hlen (by decide)

/-! ### Claim C9: headline discipline -/

theorem collapseWsCore_no_newline (fuel : Nat) :
    ∀ l : List Char, l.length ≤ fuel → '\n' ∉ collapseWsCore fuel l := by
  induction fuel with
  | zero =>
    intro l hl
    have : l = [] := List.eq_nil_of_length_eq_zero (Nat.le_zero.mp hl)
    subst this
    simp [collapseWsCore]
  | succ fuel ih =>
    intro l hl
    cases l with
    | nil => simp [collapseWsCore]
    | cons c rest =>
      rw [collapseWsCore]
      by_cases hc : isPySpace c
      · rw [if_pos hc]
        intro h
        rw [List.mem_cons] at h
        rcases h with h | h
        · exact absurd h (by decide)
        · have hlen : (rest.dropWhile isPySpace).length ≤ fuel :=
            le_trans (dropWhile_length_le _ _) (by simpa using hl)
          exact ih _ hlen h
      · rw [if_neg hc]
        intro h
        rw [List.mem_cons] at h
        rcases h with h | h
        · subst h
          exact hc (by decide)
        · exact ih rest (by simpa using hl) h

theorem collapseWs_no_newline (l : List Char) : '\n' ∉ collapseWs l :=
  collapseWsCore_no_newline l.length l (le_refl _)

theorem mem_pyStripChars (c : Char) (l : List Char) (h : c ∈ pyStripChars l) :
    c ∈ l := by
  unfold pyStripChars at h
  rw [List.mem_reverse] at h
  have h2 := (List.dropWhile_sublist _).subset h
  rw [List.mem_reverse] at h2
  exact (List.dropWhile_sublist _).subset h2

theorem mem_pyRstripChars (c : Char) (l : List Char) (h : c ∈ pyRstripChars l) :
    c ∈ l := by
  unfold pyRstripChars at h
  rw [List.mem_reverse] at h
  have h2 := (List.dropWhile_sublist _).subset h
  rw [List.mem_reverse] at h2
  exact h2

theorem pyRstripChars_length_le (l : List Char) :
    (pyRstripChars l).length ≤ l.length := by
  unfold pyRstripChars
  rw [List.length_reverse]
  calc (l.reverse.dropWhile isPySpace).length
      ≤ l.reverse.length := dropWhile_length_le _ _
    _ = l.length := List.length_reverse l

theorem clean_text_no_newline (unescape : String → String) (text : String) :
    '\n' ∉ (clean_text unescape text).data := by
  unfold clean_text
  by_cases h : text = ""
  · rw [if_pos h]
    simp
  · rw [if_neg h]
    intro hmem
    exact collapseWs_no_newline _ (mem_pyStripChars _ _ hmem)

theorem splitOnNl_no_newline (l : List Char) :
    ∀ seg ∈ splitOnNl l, '\n' ∉ seg := by
  induction l with
  | nil =>
    intro seg hs
    rw [splitOnNl, List.mem_singleton] at hs
    subst hs
    simp
  | cons c rest ih =>
    intro seg hs
    rw [splitOnNl] at hs
    by_cases hc : c = '\n'
    · rw [if_pos hc, List.mem_cons] at hs
      rcases hs with rfl | hs
      · simp
      · exact ih seg hs
    · rw [if_neg hc] at hs
      cases hsp : splitOnNl rest with
      | nil =>
        rw [hsp, List.mem_singleton] at hs
        subst hs
        intro hm
        rw [List.mem_singleton] at hm
        exact hc hm.symm
      | cons l0 ls =>
        rw [hsp, List.mem_cons] at hs
        rcases hs with rfl | hs
        · intro hm
          rw [List.mem_cons] at hm
          rcases hm with hm | hm
          · exact hc hm.symm
          · exact ih l0 (by rw [hsp]; exact List.mem_cons_self _ _) hm
        · exact ih seg (by rw [hsp]; exact List.mem_cons_of_mem _ hs)

theorem firstNonEmptyLine_no_newline (lines : List (List Char))
    (h : ∀ seg ∈ lines, '\n' ∉ seg) : '\n' ∉ firstNonEmptyLine lines := by
  induction lines with
  | nil => simp [firstNonEmptyLine]
  | cons l0 ls ih =>
    rw [firstNonEmptyLine]
    by_cases he : (pyStripChars l0).isEmpty
    · rw [if_pos he]
      exact ih (fun seg hs => h seg (List.mem_cons_of_mem _ hs))
    · rw [if_neg he]
      intro hmem
      exact h l0 (List.mem_cons_self _ _) (mem_pyStripChars _ _ hmem)

theorem stripWrappingQuotes_subset (l : List Char) :
    ∀ c ∈ stripWrappingQuotes l, c ∈ l := by
  intro c hc
  cases l with
  | nil => cases hc
  | cons c0 rest =>
    rw [stripWrappingQuotes] at hc
    by_cases hcond : (isOpenQuote c0 && decide (2 ≤ (c0 :: rest).length) &&
        (match (c0 :: rest).getLast? with
         | some d => isCloseQuote d
         | none => false)) = true
    · rw [if_pos hcond] at hc
      have h1 := mem_pyStripChars _ _ hc
      have h2 := List.dropLast_sublist ((c0 :: rest).drop 1) |>.subset h1
      exact List.drop_subset _ _ h2
    · rw [if_neg hcond] at hc
      exact hc

/-- Unfolding of the non-empty branch of `summarize_news_headline`. -/
theorem summarize_eq (text : String) (mc : Nat) (h : text ≠ "") :
    summarize_news_headline text mc =
      String.mk
        (if mc ≠ 0 ∧ mc <
            (stripWrappingQuotes (firstNonEmptyLine (splitOnNl text.data))).length then
          if mc ≤ 1 then
            (stripWrappingQuotes (firstNonEmptyLine (splitOnNl text.data))).take mc
          else
            pyRstripChars
              ((stripWrappingQuotes (firstNonEmptyLine (splitOnNl text.data))).take (mc-1))
              ++ ['…']
        else stripWrappingQuotes (firstNonEmptyLine (splitOnNl text.data))) := by
  unfold summarize_news_headline
  rw [if_neg h]

/-- The post-processed headline never carries a newline, at any cap. -/
theorem summarize_no_newline (text : String) (mc : Nat) :
    '\n' ∉ (summarize_news_headline text mc).data := by
  by_cases h : text = ""
  · subst h
    simp [summarize_news_headline]
  · rw [summarize_eq text mc h]
    have h0 : '\n' ∉ stripWrappingQuotes (firstNonEmptyLine (splitOnNl text.data)) :=
      fun hm => firstNonEmptyLine_no_newline _ (splitOnNl_no_newline text.data)
        (stripWrappingQuotes_subset _ _ hm)
    rw [string_mk_data]
    by_cases hc : mc ≠ 0 ∧ mc <
        (stripWrappingQuotes (firstNonEmptyLine (splitOnNl text.data))).length
    · rw [if_pos hc]
      by_cases h1 : mc ≤ 1
      · rw [if_pos h1]
        exact fun hm => h0 (List.take_subset _ _ hm)
      · rw [if_neg h1]
        intro hm
        rcases List.mem_append.mp hm with hm | hm
        · exact h0 (List.take_subset _ _ (mem_pyRstripChars _ _ hm))
        · have h2 := List.mem_singleton.mp hm
          exact absurd h2 (by decide)
    · rw [if_neg hc]
      exact h0

/-- The post-processed headline respects the 40-character cap. -/
theorem summarize_length_le (text : String) :
    (summarize_news_headline text 40).length ≤ 40 := by
  by_cases h : text = ""
  · subst h
    simp [summarize_news_headline, String.length]
  · rw [summarize_eq text 40 h, string_mk_length]
    by_cases hc : (40 : Nat) ≠ 0 ∧ 40 <
        (stripWrappingQuotes (firstNonEmptyLine (splitOnNl text.data))).length
    · rw [if_pos hc]
      rw [if_neg (by omega)]
      rw [List.length_append]
      have := pyRstripChars_length_le
        ((stripWrappingQuotes (firstNonEmptyLine (splitOnNl text.data))).take (40 - 1))
      have h2 := List.length_take_le (40 - 1)
        (stripWrappingQuotes (firstNonEmptyLine (splitOnNl text.data)))
      simp only [List.length_singleton]
      omega
    · rw [if_neg hc]
      push_neg at hc
      have := hc (by omega)
      omega

/-- A decorated briefing item whose incoming `headline` key is absent always
receives a single-line headline (every fallback path is whitespace-collapsed
or capped). -/
theorem decorateItem_headline_of_none (llm : String → String → String)
    (unescape : String → String) (a : NewsItem) (h : a.headline = none) :
    ∃ hl, (decorateItem llm unescape a).headline = some hl ∧ '\n' ∉ hl.data := by
  unfold decorateItem
  rw [h]
  rw [if_neg (by simp [pyTruthy])]
  refine ⟨_, rfl, ?_⟩
  by_cases h1 : summarize_news_headline
      (llm (pyTake 200 (clean_text unescape a.title))
        (pyTake 280 (clean_text unescape a.description))) 40 ≠ ""
  · rw [if_pos h1]
    exact summarize_no_newline _ _
  · rw [if_neg h1]
    by_cases h2 : clean_text unescape a.title ≠ ""
    · rw [if_pos h2]
      exact clean_text_no_newline _ _
    · rw [if_neg h2]
      by_cases h3 : clean_text unescape a.description ≠ ""
      · rw [if_pos h3]
        intro hm
        exact clean_text_no_newline unescape a.description (List.take_subset _ _ hm)
      · rw [if_neg h3]
        simp

/-- C9 (amended): the LLM-path headline post-processing always yields a
single line of at most 40 characters; every headline in the briefing output
is a single line (the fallback path collapses whitespace), but the
cleaned-title fallback is not capped at 40 characters. -/
theorem C9_headline_discipline :
    (∀ text : String, (summarize_news_headline text 40).length ≤ 40 ∧
      '\n' ∉ (summarize_news_headline text 40).data) ∧
    (∀ (max_items : Nat) (seen_urls : List String) (all_news : List NewsItem)
        (llm : String → String → String) (unescape : String → String),
      (∀ i ∈ all_news, i.headline = none) →
      ∀ i ∈ get_news_briefing max_items seen_urls all_news llm unescape,
        ∃ hl, i.headline = some hl ∧ '\n' ∉ hl.data) := by
  refine ⟨fun text => ⟨summarize_length_le text, summarize_no_newline text 40⟩, ?_⟩
  intro max_items seen_urls all_news llm unescape hnone i hi
  by_cases hraw : all_news = []
  · subst hraw
    rw [show get_news_briefing max_items seen_urls [] llm unescape = [] from rfl] at hi
    cases hi
  · have hne : all_news.isEmpty = false := by
      cases all_news with
      | nil => exact absurd rfl hraw
      | cons a l => rfl
    have hL := get_news_briefing_eq max_items seen_urls all_news llm unescape hne
    by_cases hemp : (filterUnseen max_items seen_urls all_news [] []).1.isEmpty
    · rw [if_pos hemp] at hL
      obtain ⟨_, p2⟩ := fallbackFill_inv max_items (all_news.take max_items)
        (filterUnseen max_items seen_urls all_news [] []).2 []
        (by intro a ha; cases ha) List.Pairwise.nil (by intro a ha; cases ha)
      rw [hL] at hi
      obtain ⟨a, ha, rfl⟩ := List.mem_map.mp (List.take_subset _ _ hi)
      have hmem : a ∈ all_news := by
        rcases (p2 a ha).1 with hm | hm
        · cases hm
        · exact List.take_subset _ _ hm
      exact decorateItem_headline_of_none llm unescape a (hnone a hmem)
    · rw [if_neg hemp] at hL
      obtain ⟨_, p2⟩ := filterUnseen_inv max_items seen_urls all_news [] []
        (by intro a ha; cases ha) List.Pairwise.nil (by intro a ha; cases ha)
      rw [hL] at hi
      obtain ⟨a, ha, rfl⟩ := List.mem_map.mp (List.take_subset _ _ hi)
      have hmem : a ∈ all_news := by
        rcases (p2 a ha).1 with hm | hm
        · cases hm
        · exact hm
      exact decorateItem_headline_of_none llm unescape a (hnone a hmem)

/-- Briefing item whose cleaned title is 50 characters long. -/
def longTitleItem : NewsItem :=
  ⟨"this is a very long headline title exceeding forty", "", "u", "", "", "News",
    none, none⟩

/-- C9 counterexample: with the LLM unavailable the fallback path stores the
full cleaned title as the headline — 50 characters, over the claimed
40-character bound. -/
theorem C9_counterexample :
    (get_news_briefing 5 [] [longTitleItem] (fun _ _ => "") id).map
      (fun i => (i.headline.getD "").length) = [50] ∧ ¬ (50 : Nat) ≤ 40 := by
  exact ⟨rfl, by decide⟩

/-- C9 witness: the cap on the LLM path and the single-line guarantee on the
briefing, at concrete inputs. -/
theorem C9_witness :
    (summarize_news_headline "아주 짧은 헤드라인" 40).length ≤ 40 ∧
    (∀ i ∈ get_news_briefing 5 [] [longTitleItem] (fun _ _ => "") id,
      ∃ hl, i.headline = some hl ∧ '\n' ∉ hl.data) := by
  have h := C9_headline_discipline
  refine ⟨(h.1 "아주 짧은 헤드라인").1, ?_⟩
  exact h.2 5 [] [longTitleItem] (fun _ _ => "") id
    (by intro i hi; rw [List.mem_singleton] at hi; subst hi; rfl)

end Bot
